import Mathlib

/-!
Verification of the FinSight financial-analysis core against its
natural-language specification.

Shallow embedding conventions:
* Python floats are modelled as rationals (`ℚ`); every numeric example in the
  claims is integer-valued, so no floating-point rounding is involved.
* Python `None` becomes `Option.none`; a canonical period record (a Python
  dict) becomes a structure whose fields default to `none` (absent key and
  key-mapped-to-None behave identically under `dict.get`, which is the only
  access pattern the code uses; where key presence matters it is noted).
* Python truthiness is modelled explicitly (`0` and `""` and `[]` are falsy).
* Functions are translated from `src/finsight/metrics/calculator.py`,
  `src/finsight/parser/xero_parser.py` and `src/finsight/parser/pdf_parser.py`;
  each definition's doc comment names the Python source symbol.
-/

namespace FinSight

/-- Python `a or b` for float-or-None values: `None` and `0` are falsy. -/
def pyOr (a b : Option ℚ) : Option ℚ :=
  match a with
  | none => b
  | some x => if x = 0 then b else some x

/-- Python `a or 0` for a float-or-None value (the falsy `0` case yields `0`
itself, so this is just `getD 0`). -/
def orZ (a : Option ℚ) : ℚ := a.getD 0

/-- Python float truthiness: `bool(a)` for a float-or-None value. -/
def truthy (a : Option ℚ) : Bool :=
  match a with
  | none => false
  | some x => x != 0

/-- Lowercase a string character by character (Python `str.lower`; identical on
the ASCII labels involved). -/
def pyLower (s : String) : String := String.mk (s.data.map Char.toLower)

/-- Strip leading and trailing whitespace (Python `str.strip`). -/
def pyStrip (s : String) : String :=
  String.mk (((s.data.dropWhile Char.isWhitespace).reverse.dropWhile
    Char.isWhitespace).reverse)

/-- List-of-characters prefix test. -/
def listIsPrefix : List Char → List Char → Bool
  | [], _ => true
  | _ :: _, [] => false
  | a :: as, b :: bs => a == b && listIsPrefix as bs

/-- Occurrence of `pat` as a contiguous sublist. -/
def listContainsSub (pat : List Char) : List Char → Bool
  | [] => listIsPrefix pat []
  | s@(_ :: rest) => listIsPrefix pat s || listContainsSub pat rest

/-- Python `pat in s` substring membership. -/
def strIn (pat s : String) : Bool := listContainsSub pat.data s.data

/-! ### Display formatting

The Python code interpolates numbers into human-readable `detail`, `tooltip`
and red-flag strings with format specs such as `:,.0f`, `:.1f`, `:+.1f`,
`:.2f`.  These renderings are modelled below (round-half-even like Python);
no claim depends on the rendered digits. -/

/-- Round to the nearest integer, ties to even (Python `round`/format). -/
def roundHalfEven (q : ℚ) : ℤ :=
  let f := Int.floor q
  let r := q - f
  if r < 1/2 then f
  else if 1/2 < r then f + 1
  else if f % 2 = 0 then f else f + 1

/-- Insert thousands separators into a reversed digit list. -/
def groupThrees : List Char → List Char
  | d1 :: d2 :: d3 :: rest@(_ :: _) => d1 :: d2 :: d3 :: ',' :: groupThrees rest
  | l => l

/-- Integer with thousands separators (the `,` format flag). -/
def intComma (n : ℤ) : String :=
  (if n < 0 then "-" else "") ++
    String.mk (groupThrees (toString n.natAbs).data.reverse).reverse

/-- Python `f"...:,.0f"` rendering of a float. -/
def fmtComma0 (q : ℚ) : String := intComma (roundHalfEven q)

/-- Left-pad a numeral with zeros to a given width. -/
def padZeros (w : Nat) (s : String) : String :=
  String.mk (List.replicate (w - s.length) '0') ++ s

/-- Python `f"...:.Nf"` rendering of a float (no thousands separators). -/
def fmtFixed (dec : Nat) (q : ℚ) : String :=
  let scale : ℕ := 10 ^ dec
  let n := roundHalfEven (q * (scale : ℚ))
  let sign := if n < 0 then "-" else ""
  let ip := n.natAbs / scale
  let fp := n.natAbs % scale
  if dec = 0 then sign ++ toString ip
  else sign ++ toString ip ++ "." ++ padZeros dec (toString fp)

/-- Python `f"...:+.1f"` rendering (explicit sign). -/
def fmtSigned1 (q : ℚ) : String :=
  if q < 0 then fmtFixed 1 q else "+" ++ fmtFixed 1 q

/-! ### Data structures (`metrics/calculator.py`) -/

/-- The component-breakdown dict built by `_compute_ebit_from_components`
(keys `net_profit`, `interest_expense`, `interest_items`, `tax_expense`,
`tax_items`, `depreciation`, `dep_items`, `assumption_notes`). -/
structure EbitComponents where
  net_profit : ℚ
  interest_expense : ℚ
  interest_items : List (String × ℚ)
  tax_expense : ℚ
  tax_items : List (String × ℚ)
  depreciation : ℚ
  dep_items : List (String × ℚ)
  assumption_notes : List String
  deriving DecidableEq, Repr

/-- A canonical per-period record: the Python per-period dict of canonical
fields.  `Option ℚ` fields default to `none` (absent key / None value).
`inventory_source` models the `_inventory_source` key (`""` = absent);
`ebit_computed`, `ebitda_computed` and `ebit_components` model the
`_ebit_computed`, `_ebitda_computed` and `_ebit_components` cache keys that
`run_analysis` writes onto the dict (`none` = key absent); `ebit` and
`ebitda` are the parsed statement lines; the `*_items` lists model the
`_interest_components`, `_tax_components`, `_dep_components` keys. -/
structure PeriodRecord where
  revenue : Option ℚ := none
  cogs : Option ℚ := none
  gross_profit : Option ℚ := none
  operating_expenses : Option ℚ := none
  depreciation : Option ℚ := none
  interest_expense : Option ℚ := none
  tax_expense : Option ℚ := none
  net_profit : Option ℚ := none
  ebit : Option ℚ := none
  ebitda : Option ℚ := none
  cash : Option ℚ := none
  accounts_receivable : Option ℚ := none
  inventory : Option ℚ := none
  current_assets : Option ℚ := none
  non_current_assets : Option ℚ := none
  total_assets : Option ℚ := none
  accounts_payable : Option ℚ := none
  current_liabilities : Option ℚ := none
  non_current_liabilities : Option ℚ := none
  total_liabilities : Option ℚ := none
  equity : Option ℚ := none
  total_debt : Option ℚ := none
  operating_cash_flow : Option ℚ := none
  investing_cash_flow : Option ℚ := none
  financing_cash_flow : Option ℚ := none
  inventory_source : String := ""
  interest_items : List (String × ℚ) := []
  tax_items : List (String × ℚ) := []
  dep_items : List (String × ℚ) := []
  ebit_computed : Option ℚ := none
  ebitda_computed : Option ℚ := none
  ebit_components : Option EbitComponents := none
  deriving DecidableEq, Repr

/-- `MetricResult` dataclass. -/
structure MetricResult where
  name : String
  label : String
  current : Option ℚ
  prior : Option ℚ
  prior2 : Option ℚ
  status : String
  format_type : String
  category : String
  tooltip : String := ""
  trend : String := "–"
  benchmark_low : Option ℚ := none
  benchmark_high : Option ℚ := none
  benchmark_status : String := "grey"
  notes : String := ""
  components : Option EbitComponents := none
  deriving DecidableEq, Repr

/-- `SelfCheckResult` dataclass. -/
structure SelfCheckResult where
  check_name : String
  description : String
  status : String
  detail : String
  what_it_means : String
  values : List (String × ℚ) := []
  deriving DecidableEq, Repr

/-- The `financial_data` argument of `run_analysis`/`run_self_checks`:
`{"data": {"current": ..., "prior": ..., "prior2": ...}, "period_labels": ...}`.
`none` models an absent / None / empty-dict period (all are falsy and all
`.get` calls on them return None). -/
structure FinData where
  current : Option PeriodRecord := none
  prior : Option PeriodRecord := none
  prior2 : Option PeriodRecord := none
  period_labels : Option (List String) := none
  deriving DecidableEq, Repr

/-- One benchmark range (`{low: ..., high: ...}`); both bounds are present in
the bundled dataset, matching the `bm["low"]`/`bm["high"]` accesses. -/
structure BmRange where
  low : ℚ
  high : ℚ
  deriving DecidableEq, Repr

/-- The `industry_benchmarks` dict keyed by benchmark name (`none` = key
absent / empty, which is falsy). -/
structure Benchmarks where
  gross_profit_margin : Option BmRange := none
  net_profit_margin : Option BmRange := none
  cost_of_sales : Option BmRange := none
  labour : Option BmRange := none
  rent : Option BmRange := none
  motor_vehicle : Option BmRange := none
  deriving DecidableEq, Repr

/-- One entry of `calculate_benchmark_comparisons`. -/
structure BenchComparison where
  label : String
  actual_pct : Option ℚ
  benchmark_low : Option ℚ
  benchmark_high : Option ℚ
  deriving DecidableEq, Repr

/-- `AnalysisResult` dataclass.  `metrics` is the insertion-ordered dict;
`raw_data` holds the (by then mutated) period records. -/
structure AnalysisResult where
  metrics : List (String × MetricResult) := []
  red_flags : List String := []
  period_labels : List String := []
  raw_current : Option PeriodRecord := none
  raw_prior : Option PeriodRecord := none
  raw_prior2 : Option PeriodRecord := none
  self_checks : List SelfCheckResult := []
  has_self_check_fails : Bool := false
  has_self_check_warns : Bool := false
  benchmark_comparisons : List (String × BenchComparison) := []
  deriving DecidableEq, Repr

/-! ### Helper functions (`metrics/calculator.py`) -/

/-- `_safe_div`: None if either operand is None or the denominator is 0. -/
def safe_div (numerator denominator : Option ℚ) : Option ℚ :=
  match numerator, denominator with
  | some n, some d => if d = 0 then none else some (n / d)
  | _, _ => none

/-- `_pct`: safe division scaled to a percentage. -/
def pct (numerator denominator : Option ℚ) : Option ℚ :=
  (safe_div numerator denominator).map (· * 100)

/-- `_trend`. -/
def trend (current prior : Option ℚ) (higher_better : Bool := true) : String :=
  match current, prior with
  | some c, some p =>
    if |c - p| < 0.001 then "→"
    else if c > p then (if higher_better then "↑" else "↓")
    else (if higher_better then "↓" else "↑")
  | _, _ => "–"

/-- The threshold dicts passed to `_traffic_light`: either
`green_above`/`amber_above`, or `green_below`/`amber_below`, or
`green_min`/`green_max` with optional `amber_min`/`amber_max`
(absent bounds default to ∓∞; the range shape has no call site). -/
inductive Thresholds where
  | above (green amber : ℚ)
  | below (green amber : ℚ)
  | range (green_min green_max : ℚ) (amber_min amber_max : Option ℚ)
  deriving DecidableEq, Repr

/-- `_traffic_light`. -/
def traffic_light (value : Option ℚ) (t : Thresholds) : String :=
  match value with
  | none => "grey"
  | some v =>
    match t with
    | .above g a => if v ≥ g then "green" else if v ≥ a then "amber" else "red"
    | .below g a => if v ≤ g then "green" else if v ≤ a then "amber" else "red"
    | .range gmin gmax amin amax =>
      if gmin ≤ v ∧ v ≤ gmax then "green"
      else if (match amin with | none => true | some m => decide (m ≤ v)) &&
              (match amax with | none => true | some m => decide (v ≤ m)) then "amber"
      else "red"

/-- Assumption note emitted when interest defaults to zero. -/
def noteNoInterest : String :=
  "Interest expense not identified — EBIT = Net Profit + Tax only"

/-- Assumption note emitted when tax defaults to zero. -/
def noteNoTax : String :=
  "Tax expense not identified (may be partnership/trust) — EBIT = Net Profit + Interest only"

/-- Assumption note emitted when depreciation defaults to zero. -/
def noteNoDep : String := "D&A not identified — EBITDA may be understated"

/-- `_compute_ebit_from_components`: always calculate EBIT from
Net Profit + Interest + Tax, never from a parsed EBIT line.
Returns `(ebit, ebitda, components_dict, assumption_notes)`; the empty
components dict of the no-net-profit branch is modelled as `none`. -/
def compute_ebit_from_components (period_data : PeriodRecord) :
    Option ℚ × Option ℚ × Option EbitComponents × List String :=
  match period_data.net_profit with
  | none => (none, none, none,
      ["Net Profit not available — EBIT cannot be calculated"])
  | some np =>
    let interest := orZ period_data.interest_expense
    let tax := orZ period_data.tax_expense
    let dep := orZ period_data.depreciation
    let assumption_notes :=
      (if interest = 0 then [noteNoInterest] else []) ++
      (if tax = 0 then [noteNoTax] else []) ++
      (if dep = 0 then [noteNoDep] else [])
    let ebit := np + interest + tax
    let ebitda := ebit + dep
    let components : EbitComponents :=
      { net_profit := np
        interest_expense := interest
        interest_items := period_data.interest_items
        tax_expense := tax
        tax_items := period_data.tax_items
        depreciation := dep
        dep_items := period_data.dep_items
        assumption_notes := assumption_notes }
    (some ebit, some ebitda, some components, assumption_notes)

/-! ### Self-check engine (`run_self_checks`)

Each `CHECK n` block of `run_self_checks` appends zero or one
`SelfCheckResult`; they are modelled as one definition each and concatenated
in source order. -/

/-- The missing-field list of CHECK 1's else-branch. -/
def pl_missing (cur : PeriodRecord) : List String :=
  (([("Revenue", cur.revenue), ("COGS", cur.cogs),
     ("Operating Expenses", cur.operating_expenses),
     ("Net Profit", cur.net_profit)] : List (String × Option ℚ)).filter
    (fun kv => kv.2 = none)).map (·.1)

/-- CHECK 1: P&L Balance. -/
def check_pl_balance (cur : PeriodRecord) : SelfCheckResult :=
  let interest := orZ cur.interest_expense
  let tax := orZ cur.tax_expense
  let description := "Revenue − COGS − Operating Expenses − Interest − Tax = Net Profit"
  match cur.revenue, cur.cogs, cur.operating_expenses, cur.net_profit with
  | some revenue, some cogs, some opex, some net_profit =>
    let calc_np := revenue - cogs - opex - interest - tax
    let diff := |calc_np - net_profit|
    let tolerance := max 1 (|net_profit| * 0.001)
    { check_name := "P&L Balance"
      description := description
      status := if diff ≤ 1 then "pass" else if diff ≤ tolerance then "warn" else "fail"
      detail := "Calculated Net Profit: $" ++ fmtComma0 calc_np ++
        " | Reported Net Profit: $" ++ fmtComma0 net_profit ++
        " | Difference: $" ++ fmtComma0 diff
      what_it_means := "Verifies that P&L components add up to the reported Net Profit. A FAIL indicates missing line items (e.g. unidentified expenses) or a parsing error."
      values := [("calculated", calc_np), ("reported", net_profit), ("difference", diff)] }
  | _, _, _, _ =>
    { check_name := "P&L Balance"
      description := description
      status := "warn"
      detail := "Cannot perform check — missing: " ++
        String.intercalate ", " (pl_missing cur)
      what_it_means := "Requires Revenue, COGS, Operating Expenses, and Net Profit to verify."
      values := [] }

/-- CHECK 2: Gross Profit Consistency.  `none` models the silent
"No parsed GP — derive it, no check needed" branch. -/
def check_gross_profit (cur : PeriodRecord) : Option SelfCheckResult :=
  let description := "Gross Profit (parsed) = Revenue − COGS"
  match cur.revenue, cur.cogs, cur.gross_profit with
  | some revenue, some cogs, some gross_profit =>
    let calc_gp := revenue - cogs
    let diff := |gross_profit - calc_gp|
    some
      { check_name := "Gross Profit Check"
        description := description
        status := if diff ≤ 1 then "pass" else "fail"
        detail := "Parsed GP: $" ++ fmtComma0 gross_profit ++
          " | Calculated (Rev−COGS): $" ++ fmtComma0 calc_gp ++
          " | Difference: $" ++ fmtComma0 diff
        what_it_means := "Confirms the Gross Profit figure matches the Revenue minus COGS calculation. A FAIL may mean the COGS or Revenue figure is a line item instead of a section total."
        values := [("parsed", gross_profit), ("calculated", calc_gp), ("difference", diff)] }
  | some _, some _, none => none
  | _, _, _ =>
    some
      { check_name := "Gross Profit Check"
        description := description
        status := "warn"
        detail := "Cannot perform check — Revenue or COGS not available"
        what_it_means := "Requires Revenue, COGS, and Gross Profit to verify consistency."
        values := [] }

/-- The missing-field list of CHECK 3's else-branch. -/
def bs_missing (cur : PeriodRecord) : List String :=
  (([("Total Assets", cur.total_assets),
     ("Total Liabilities", cur.total_liabilities),
     ("Equity", cur.equity)] : List (String × Option ℚ)).filter
    (fun kv => kv.2 = none)).map (·.1)

/-- CHECK 3: Balance Sheet Equation. -/
def check_balance_sheet (cur : PeriodRecord) : SelfCheckResult :=
  let description := "Total Assets = Total Liabilities + Equity"
  match cur.total_assets, cur.total_liabilities, cur.equity with
  | some total_assets, some total_liabilities, some equity =>
    let liab_plus_eq := total_liabilities + equity
    let diff := |total_assets - liab_plus_eq|
    { check_name := "Balance Sheet Equation"
      description := description
      status := if diff ≤ 1 then "pass"
        else if diff ≤ total_assets * 0.005 then "warn" else "fail"
      detail := "Total Assets: $" ++ fmtComma0 total_assets ++
        " | Liabilities + Equity: $" ++ fmtComma0 liab_plus_eq ++
        " | Difference: $" ++ fmtComma0 diff
      what_it_means := "The fundamental accounting equation. If this fails, there may be missing balance sheet items or a parsing error that will affect all balance sheet ratios."
      values := [("assets", total_assets), ("liabilities_plus_equity", liab_plus_eq), ("difference", diff)] }
  | _, _, _ =>
    { check_name := "Balance Sheet Equation"
      description := description
      status := "warn"
      detail := "Cannot perform check — missing: " ++
        String.intercalate ", " (bs_missing cur)
      what_it_means := "Requires Total Assets, Total Liabilities, and Equity."
      values := [] }

/-- CHECK 4: Equity Movement (only run when prior-period data is truthy). -/
def check_equity_movement (cur prior : PeriodRecord) : SelfCheckResult :=
  let description := "Closing Equity ≈ Opening Equity + Net Profit (±capital movements)"
  match prior.equity, cur.equity, cur.net_profit with
  | some prior_equity, some cur_equity, some cur_np =>
    let expected_eq := prior_equity + cur_np
    let diff := |cur_equity - expected_eq|
    { check_name := "Equity Movement"
      description := description
      status := if diff > 1 then "warn" else "pass"
      detail := "Closing Equity: $" ++ fmtComma0 cur_equity ++
        " | Opening + Net Profit: $" ++ fmtComma0 expected_eq ++
        " | Unexplained movement: $" ++ fmtComma0 diff
      what_it_means := "Checks equity movement. Differences are normal if dividends, drawings, or capital contributions occurred during the year. This is always WARN at most — review if the unexplained movement is unexpected."
      values := [("closing", cur_equity), ("expected", expected_eq), ("difference", diff)] }
  | _, _, _ =>
    { check_name := "Equity Movement"
      description := description
      status := "warn"
      detail := "Prior year equity or current net profit not available"
      what_it_means := "Requires current and prior year equity, and current net profit."
      values := [] }

/-- CHECK 5: Current Assets/Liabilities Subtotals.  Silently skipped (`none`)
when `current_assets` is None or all identified components are falsy. -/
def check_ca_subtotal (cur : PeriodRecord) : Option SelfCheckResult :=
  let cash := orZ cur.cash
  let ar := orZ cur.accounts_receivable
  let inv := orZ cur.inventory
  match cur.current_assets with
  | some current_assets =>
    if cash ≠ 0 ∨ ar ≠ 0 ∨ inv ≠ 0 then
      let component_sum := cash + ar + inv
      if component_sum > current_assets + 1 then
        let diff := component_sum - current_assets
        some
          { check_name := "Current Assets Subtotal"
            description := "Sum of identified current assets ≤ Total Current Assets"
            status := "warn"
            detail := "Cash+AR+Inventory: $" ++ fmtComma0 component_sum ++
              " | Total Current Assets: $" ++ fmtComma0 current_assets ++
              " | Excess: $" ++ fmtComma0 diff
            what_it_means := "The sum of Cash, AR, and Inventory exceeds Total Current Assets — possible parsing error where a line item total was picked up instead of a subtotal."
            values := [("components", component_sum), ("total", current_assets), ("excess", diff)] }
      else
        some
          { check_name := "Current Assets Subtotal"
            description := "Sum of identified current assets ≤ Total Current Assets"
            status := "pass"
            detail := "Cash+AR+Inventory: $" ++ fmtComma0 component_sum ++
              " | Total Current Assets: $" ++ fmtComma0 current_assets
            what_it_means := "The identified current assets are consistent with the total. The difference (if any) represents other current assets not individually captured."
            values := [("components", component_sum), ("total", current_assets)] }
    else none
  | none => none

/-- CHECK 6: Revenue Reasonableness (only run when prior-period data is
truthy; silently skipped when either revenue is falsy or prior ≤ 0). -/
def check_revenue_reasonableness (cur prior : PeriodRecord) : Option SelfCheckResult :=
  match prior.revenue, cur.revenue with
  | some prior_revenue, some cur_revenue =>
    if prior_revenue ≠ 0 ∧ cur_revenue ≠ 0 ∧ prior_revenue > 0 then
      let pct_change := (cur_revenue - prior_revenue) / prior_revenue * 100
      if |pct_change| > 50 then
        some
          { check_name := "Revenue Reasonableness"
            description := "Revenue changed " ++ fmtSigned1 pct_change ++
              "% YoY — verify this is correct"
            status := "warn"
            detail := "Current: $" ++ fmtComma0 cur_revenue ++
              " | Prior: $" ++ fmtComma0 prior_revenue ++
              " | Change: " ++ fmtSigned1 pct_change ++ "%"
            what_it_means := "Revenue has changed by more than 50% year-on-year. This could be a genuine business event (major client win/loss, COVID impact) or a parsing error where the wrong column was used."
            values := [("current", cur_revenue), ("prior", prior_revenue), ("pct_change", pct_change)] }
      else
        some
          { check_name := "Revenue Reasonableness"
            description := "Revenue change within normal range (<50% YoY)"
            status := "pass"
            detail := "Current: $" ++ fmtComma0 cur_revenue ++
              " | Prior: $" ++ fmtComma0 prior_revenue ++
              " | Change: " ++ fmtSigned1 pct_change ++ "%"
            what_it_means := "Year-on-year revenue movement is within expected bounds."
            values := [("current", cur_revenue), ("prior", prior_revenue), ("pct_change", pct_change)] }
    else none
  | _, _ => none

/-- `run_self_checks`: all financial integrity self-checks, in source order.
CHECKs 4 and 6 are guarded by `if prior:` (prior dict truthy = present). -/
def run_self_checks (financial_data : FinData) : List SelfCheckResult :=
  let cur := financial_data.current.getD {}
  [check_pl_balance cur] ++
  (check_gross_profit cur).toList ++
  [check_balance_sheet cur] ++
  (match financial_data.prior with
   | some prior => [check_equity_movement cur prior]
   | none => []) ++
  (check_ca_subtotal cur).toList ++
  (match financial_data.prior with
   | some prior => (check_revenue_reasonableness cur prior).toList
   | none => [])

/-! ### Metric calculators -/

/-- `calculate_liquidity`. -/
def calculate_liquidity (cur prior prior2 : PeriodRecord) :
    List (String × MetricResult) :=
  let cr_cur := safe_div cur.current_assets cur.current_liabilities
  let cr_pri := safe_div prior.current_assets prior.current_liabilities
  let cr_p2 := safe_div prior2.current_assets prior2.current_liabilities
  let inv := orZ cur.inventory
  let inv_p := orZ prior.inventory
  let inv_p2 := orZ prior2.inventory
  let inv_source := cur.inventory_source
  let inv_note :=
    if inv_source = "" ∨ inv_source = "not_found" then
      "Inventory not identified on Balance Sheet — Quick Ratio equals Current Ratio. Inventory Days cannot be calculated."
    else ""
  let qr_cur := safe_div (some (orZ cur.current_assets - inv)) cur.current_liabilities
  let qr_pri := safe_div (some (orZ prior.current_assets - inv_p)) prior.current_liabilities
  let qr_p2 := safe_div (some (orZ prior2.current_assets - inv_p2)) prior2.current_liabilities
  let dcoh_cur :=
    if truthy cur.operating_expenses then
      safe_div cur.cash (safe_div cur.operating_expenses (some 365))
    else none
  let dcoh_pri :=
    if truthy prior.operating_expenses then
      safe_div prior.cash (safe_div prior.operating_expenses (some 365))
    else none
  [("current_ratio",
    { name := "current_ratio", label := "Current Ratio"
      current := cr_cur, prior := cr_pri, prior2 := cr_p2
      status := traffic_light cr_cur (.above 2 1)
      format_type := "ratio", category := "liquidity"
      trend := trend cr_cur cr_pri
      tooltip := "Current Assets ÷ Current Liabilities. Green ≥2.0, Amber 1.0–1.99, Red <1.0" }),
   ("quick_ratio",
    { name := "quick_ratio", label := "Quick Ratio"
      current := qr_cur, prior := qr_pri, prior2 := qr_p2
      status := traffic_light qr_cur (.above 1 0.5)
      format_type := "ratio", category := "liquidity"
      trend := trend qr_cur qr_pri
      tooltip := "(Current Assets − Inventory) ÷ Current Liabilities. Green ≥1.0, Amber 0.5–0.99"
      notes := inv_note }),
   ("days_cash_on_hand",
    { name := "days_cash_on_hand", label := "Days Cash on Hand"
      current := dcoh_cur, prior := dcoh_pri, prior2 := none
      status := traffic_light dcoh_cur (.above 30 15)
      format_type := "days", category := "liquidity"
      trend := trend dcoh_cur dcoh_pri
      tooltip := "Cash ÷ (Operating Expenses ÷ 365). Green ≥30 days, Amber 15–29 days" })]

/-- `calculate_profitability`.  The `prior.get(...) if prior else None`
guards are equivalent to direct record access since an empty dict's gets are
all None. -/
def calculate_profitability (cur prior prior2 : PeriodRecord) :
    List (String × MetricResult) :=
  let ebit_cur := cur.ebit_computed
  let ebit_pri := prior.ebit_computed
  let ebit_p2 := prior2.ebit_computed
  let ebitda_cur := cur.ebitda_computed
  let ebitda_pri := prior.ebitda_computed
  let ebitda_p2 := prior2.ebitda_computed
  let ebit_components_cur := cur.ebit_components
  let gpm_cur := pct cur.gross_profit cur.revenue
  let gpm_pri := pct prior.gross_profit prior.revenue
  let gpm_p2 := pct prior2.gross_profit prior2.revenue
  let npm_cur := pct cur.net_profit cur.revenue
  let npm_pri := pct prior.net_profit prior.revenue
  let npm_p2 := pct prior2.net_profit prior2.revenue
  let ebit_m_cur := pct ebit_cur cur.revenue
  let ebit_m_pri := pct ebit_pri prior.revenue
  let ebit_m_p2 := pct ebit_p2 prior2.revenue
  let ebit_tooltip :=
    let base := "EBIT ÷ Revenue × 100. EBIT = Net Profit + Tax + Interest (always calculated from components)."
    match ebit_components_cur with
    | some c =>
      if c.assumption_notes ≠ [] then
        base ++ " Note: " ++ String.intercalate " | " c.assumption_notes
      else base
    | none => base
  let ebit_notes :=
    match ebit_components_cur with
    | some c => String.intercalate "; " c.assumption_notes
    | none => ""
  let ebitda_m_cur := pct ebitda_cur cur.revenue
  let ebitda_m_pri := pct ebitda_pri prior.revenue
  let ebitda_m_p2 := pct ebitda_p2 prior2.revenue
  let dep_note :=
    match ebit_components_cur with
    | some c => if c.depreciation = 0 then noteNoDep else ""
    | none => ""
  let roa_cur := pct cur.net_profit cur.total_assets
  let roa_pri := pct prior.net_profit prior.total_assets
  let roa_p2 := pct prior2.net_profit prior2.total_assets
  let roe_cur := pct cur.net_profit cur.equity
  let roe_pri := pct prior.net_profit prior.equity
  let roe_p2 := pct prior2.net_profit prior2.equity
  [("gross_profit_margin",
    { name := "gross_profit_margin", label := "Gross Profit Margin %"
      current := gpm_cur, prior := gpm_pri, prior2 := gpm_p2
      status := "grey"
      format_type := "percentage", category := "profitability"
      trend := trend gpm_cur gpm_pri
      tooltip := "Gross Profit ÷ Revenue × 100. Benchmarked against ATO industry data." }),
   ("net_profit_margin",
    { name := "net_profit_margin", label := "Net Profit Margin %"
      current := npm_cur, prior := npm_pri, prior2 := npm_p2
      status := "grey"
      format_type := "percentage", category := "profitability"
      trend := trend npm_cur npm_pri
      tooltip := "Net Profit ÷ Revenue × 100. Benchmarked against ATO industry data." }),
   ("ebit_margin",
    { name := "ebit_margin", label := "EBIT Margin %"
      current := ebit_m_cur, prior := ebit_m_pri, prior2 := ebit_m_p2
      status := traffic_light ebit_m_cur (.above 10 3)
      format_type := "percentage", category := "profitability"
      trend := trend ebit_m_cur ebit_m_pri
      tooltip := ebit_tooltip
      components := ebit_components_cur
      notes := ebit_notes }),
   ("ebitda_margin",
    { name := "ebitda_margin", label := "EBITDA Margin %"
      current := ebitda_m_cur, prior := ebitda_m_pri, prior2 := ebitda_m_p2
      status := traffic_light ebitda_m_cur (.above 15 5)
      format_type := "percentage", category := "profitability"
      trend := trend ebitda_m_cur ebitda_m_pri
      tooltip := "EBITDA ÷ Revenue × 100. Green ≥15%, Amber 5–14.9%, Red <5%. EBITDA = EBIT + D&A."
      notes := dep_note
      components := ebit_components_cur }),
   ("return_on_assets",
    { name := "return_on_assets", label := "Return on Assets %"
      current := roa_cur, prior := roa_pri, prior2 := roa_p2
      status := traffic_light roa_cur (.above 10 3)
      format_type := "percentage", category := "profitability"
      trend := trend roa_cur roa_pri
      tooltip := "Net Profit ÷ Total Assets × 100. Green ≥10%, Amber 3–9.9%, Red <3%" }),
   ("return_on_equity",
    { name := "return_on_equity", label := "Return on Equity %"
      current := roe_cur, prior := roe_pri, prior2 := roe_p2
      status := traffic_light roe_cur (.above 15 5)
      format_type := "percentage", category := "profitability"
      trend := trend roe_cur roe_pri
      tooltip := "Net Profit ÷ Total Equity × 100. Green ≥15%, Amber 5–14.9%, Red <5%" })]

/-- `calculate_efficiency`. -/
def calculate_efficiency (cur prior prior2 : PeriodRecord) :
    List (String × MetricResult) :=
  let dd_cur := safe_div (some (orZ cur.accounts_receivable * 365)) cur.revenue
  let dd_pri := safe_div (some (orZ prior.accounts_receivable * 365)) prior.revenue
  let dd_p2 := safe_div (some (orZ prior2.accounts_receivable * 365)) prior2.revenue
  let cogs := pyOr cur.cogs cur.revenue
  let cogs_p := pyOr prior.cogs prior.revenue
  let cogs_p2 := pyOr prior2.cogs prior2.revenue
  let cd_cur := safe_div (some (orZ cur.accounts_payable * 365)) cogs
  let cd_pri := safe_div (some (orZ prior.accounts_payable * 365)) cogs_p
  let cd_p2 := safe_div (some (orZ prior2.accounts_payable * 365)) cogs_p2
  let inv_source := cur.inventory_source
  let inv_note :=
    if inv_source = "" ∨ inv_source = "not_found" then
      "Inventory not identified on Balance Sheet — Inventory Days cannot be calculated."
    else ""
  let id_cur := if inv_note ≠ "" then none
    else safe_div (some (orZ cur.inventory * 365)) cogs
  let id_pri := if inv_note ≠ "" then none
    else safe_div (some (orZ prior.inventory * 365)) cogs_p
  let id_p2 := if inv_note ≠ "" then none
    else safe_div (some (orZ prior2.inventory * 365)) cogs_p2
  let ccc_cur :=
    match dd_cur, cd_cur with
    | some dd, some cd => some (dd + orZ id_cur - cd)
    | _, _ => none
  let ccc_pri :=
    match dd_pri, cd_pri with
    | some dd, some cd => some (dd + orZ id_pri - cd)
    | _, _ => none
  [("debtor_days",
    { name := "debtor_days", label := "Debtor Days"
      current := dd_cur, prior := dd_pri, prior2 := dd_p2
      status := traffic_light dd_cur (.below 30 60)
      format_type := "days", category := "efficiency"
      trend := trend dd_cur dd_pri false
      tooltip := "Accounts Receivable ÷ Revenue × 365. Green ≤30 days, Amber 31–60 days, Red >60" }),
   ("creditor_days",
    { name := "creditor_days", label := "Creditor Days"
      current := cd_cur, prior := cd_pri, prior2 := cd_p2
      status := "grey"
      format_type := "days", category := "efficiency"
      trend := trend cd_cur cd_pri
      tooltip := "Accounts Payable ÷ COGS × 365. Informational — flag if shorter than Debtor Days."
      notes :=
        match cd_cur, dd_cur with
        | some cd, some dd =>
          if cd < dd then "⚠️ Creditor days below debtor days creates working capital pressure."
          else ""
        | _, _ => "" }),
   ("inventory_days",
    { name := "inventory_days", label := "Inventory Days"
      current := id_cur, prior := id_pri, prior2 := id_p2
      status := if truthy id_cur then traffic_light id_cur (.below 45 90) else "grey"
      format_type := "days", category := "efficiency"
      trend := trend id_cur id_pri false
      tooltip := "Inventory ÷ COGS × 365 (inventory from Balance Sheet only). Green ≤45, Amber 46–90."
      notes := inv_note }),
   ("cash_conversion_cycle",
    { name := "cash_conversion_cycle", label := "Cash Conversion Cycle"
      current := ccc_cur, prior := ccc_pri, prior2 := none
      status := if ccc_cur ≠ none then traffic_light ccc_cur (.below 30 60) else "grey"
      format_type := "days", category := "efficiency"
      trend := trend ccc_cur ccc_pri false
      tooltip := "Debtor Days + Inventory Days − Creditor Days. Lower is better." })]

/-- `calculate_leverage`.  Interest Coverage falls back from the
`_ebit_computed` cache to the parsed `ebit` line through Python `or`
(which also falls through when the computed EBIT is exactly zero). -/
def calculate_leverage (cur prior prior2 : PeriodRecord) :
    List (String × MetricResult) :=
  let dte_cur := safe_div cur.total_liabilities cur.equity
  let dte_pri := safe_div prior.total_liabilities prior.equity
  let dte_p2 := safe_div prior2.total_liabilities prior2.equity
  let ebit_cur := pyOr cur.ebit_computed cur.ebit
  let ebit_pri := pyOr prior.ebit_computed prior.ebit
  let ebit_p2 := pyOr prior2.ebit_computed prior2.ebit
  let ic_cur := safe_div ebit_cur cur.interest_expense
  let ic_pri := safe_div ebit_pri prior.interest_expense
  let ic_p2 := safe_div ebit_p2 prior2.interest_expense
  let nd_cur :=
    if cur.total_debt ≠ none then some (orZ cur.total_debt - orZ cur.cash)
    else if cur.total_liabilities ≠ none then
      some (orZ cur.total_liabilities - orZ cur.cash)
    else none
  let nd_pri :=
    if prior.total_debt ≠ none then some (orZ prior.total_debt - orZ prior.cash)
    else none
  [("debt_to_equity",
    { name := "debt_to_equity", label := "Debt-to-Equity Ratio"
      current := dte_cur, prior := dte_pri, prior2 := dte_p2
      status := if dte_cur ≠ none then traffic_light dte_cur (.below 1 2) else "grey"
      format_type := "ratio", category := "leverage"
      trend := trend dte_cur dte_pri false
      tooltip := "Total Liabilities ÷ Total Equity. Green ≤1.0, Amber 1.01–2.0, Red >2.0" }),
   ("interest_coverage",
    { name := "interest_coverage", label := "Interest Coverage Ratio"
      current := ic_cur, prior := ic_pri, prior2 := ic_p2
      status := if ic_cur ≠ none then traffic_light ic_cur (.above 3 1.5) else "grey"
      format_type := "ratio", category := "leverage"
      trend := trend ic_cur ic_pri
      tooltip := "EBIT ÷ Interest Expense. Green ≥3.0x, Amber 1.5–2.99x, Red <1.5x. EBIT calculated from Net Profit + Tax + Interest." }),
   ("net_debt",
    { name := "net_debt", label := "Net Debt"
      current := nd_cur, prior := nd_pri, prior2 := none
      status := "grey"
      format_type := "currency", category := "leverage"
      trend := trend nd_cur nd_pri false
      tooltip := "Total Debt − Cash. Informational — shows net borrowing position." })]

/-- Python truthiness of `any(v is not None for v in prior.values())` for a
period dict: some stored value is not None (non-`Option` entries such as
`_inventory_source` strings or component lists count when present). -/
def hasAnyValue (p : PeriodRecord) : Bool :=
  p.revenue.isSome || p.cogs.isSome || p.gross_profit.isSome ||
  p.operating_expenses.isSome || p.depreciation.isSome ||
  p.interest_expense.isSome || p.tax_expense.isSome || p.net_profit.isSome ||
  p.ebit.isSome || p.ebitda.isSome || p.cash.isSome ||
  p.accounts_receivable.isSome || p.inventory.isSome ||
  p.current_assets.isSome || p.non_current_assets.isSome ||
  p.total_assets.isSome || p.accounts_payable.isSome ||
  p.current_liabilities.isSome || p.non_current_liabilities.isSome ||
  p.total_liabilities.isSome || p.equity.isSome || p.total_debt.isSome ||
  p.operating_cash_flow.isSome || p.investing_cash_flow.isSome ||
  p.financing_cash_flow.isSome ||
  decide (p.inventory_source ≠ "") ||
  !p.interest_items.isEmpty || !p.tax_items.isEmpty || !p.dep_items.isEmpty ||
  p.ebit_computed.isSome || p.ebitda_computed.isSome || p.ebit_components.isSome

/-- `calculate_growth`: returns no metrics when the prior period is falsy or
holds no non-None value. -/
def calculate_growth (cur prior _prior2 : PeriodRecord) :
    List (String × MetricResult) :=
  if !hasAnyValue prior then []
  else
    let rev_growth := pct (some (orZ cur.revenue - orZ prior.revenue)) prior.revenue
    let gp_growth := pct (some (orZ cur.gross_profit - orZ prior.gross_profit)) prior.gross_profit
    let exp_growth := pct (some (orZ cur.operating_expenses - orZ prior.operating_expenses)) prior.operating_expenses
    let expense_flag :=
      match exp_growth, rev_growth with
      | some e, some r =>
        if e > r + 2 then "⚠️ Expenses growing faster than revenue." else ""
      | _, _ => ""
    let np_growth := pct (some (orZ cur.net_profit - orZ prior.net_profit)) prior.net_profit
    [("revenue_growth",
      { name := "revenue_growth", label := "Revenue Growth % YoY"
        current := rev_growth, prior := none, prior2 := none
        status := if rev_growth ≠ none then traffic_light rev_growth (.above 10 0) else "grey"
        format_type := "percentage", category := "growth"
        trend := if orZ rev_growth > 0 then "↑" else "↓"
        tooltip := "(Current Revenue − Prior Revenue) ÷ Prior Revenue × 100." }),
     ("gross_profit_growth",
      { name := "gross_profit_growth", label := "Gross Profit $ Growth % YoY"
        current := gp_growth, prior := none, prior2 := none
        status := if gp_growth ≠ none then traffic_light gp_growth (.above 10 0) else "grey"
        format_type := "percentage", category := "growth"
        trend := if orZ gp_growth > 0 then "↑" else "↓"
        tooltip := "Year-on-year growth in gross profit dollars." }),
     ("expense_growth",
      { name := "expense_growth", label := "Expense Growth % YoY"
        current := exp_growth, prior := none, prior2 := none
        status := if expense_flag ≠ "" then "red"
          else if orZ exp_growth ≤ orZ rev_growth then "green" else "amber"
        format_type := "percentage", category := "growth"
        trend := if orZ exp_growth > 0 then "↑" else "↓"
        tooltip := "Operating Expense growth YoY. Flag if growing faster than revenue."
        notes := expense_flag }),
     ("net_profit_growth",
      { name := "net_profit_growth", label := "Net Profit Growth % YoY"
        current := np_growth, prior := none, prior2 := none
        status := if np_growth ≠ none then traffic_light np_growth (.above 10 0) else "grey"
        format_type := "percentage", category := "growth"
        trend := if orZ np_growth > 0 then "↑" else "↓"
        tooltip := "Year-on-year growth in net profit." })]

/-! ### Red-flag detection and benchmarks -/

/-- Python `a or 1` for a float-or-None value (`None` and `0` are falsy). -/
def orOne (a : Option ℚ) : ℚ :=
  match a with
  | none => 1
  | some x => if x = 0 then 1 else x

/-- The TypeError Python raises when an f-string applies a numeric format
spec to None (reachable in `detect_red_flags`, see below). -/
def fmtNoneTypeError : String :=
  "TypeError: unsupported format string passed to NoneType.__format__"

/-- `detect_red_flags`.  `priorT = none` models a falsy (empty) prior dict.
The final expenses-vs-revenue rule formats `exp_metric.current` and
`rev_metric.current` with `:.1f`, which raises a TypeError when the fired
rule has a None growth value; this is modelled with `Except.error`. -/
def detect_red_flags (cur : PeriodRecord) (priorT _prior2 : Option PeriodRecord)
    (metrics : List (String × MetricResult)) : Except String (List String) :=
  let flags1 : List String :=
    match metrics.lookup "current_ratio" with
    | some cr =>
      match cr.current with
      | some v =>
        if v < 1 then
          ["⚠️ Current Ratio is " ++ fmtFixed 2 v ++
            "x — below 1.0x signals potential liquidity issues."]
        else []
      | none => []
    | none => []
  let flags2 : List String :=
    match metrics.lookup "interest_coverage" with
    | some ic =>
      match ic.current with
      | some v =>
        if v < 1.5 then
          ["⚠️ Interest Coverage is " ++ fmtFixed 2 v ++
            "x — below 1.5x indicates earnings may not cover interest."]
        else []
      | none => []
    | none => []
  let flags3 : List String :=
    match cur.net_profit with
    | some np =>
      if np < 0 then
        ["⚠️ Net Loss of $" ++ fmtComma0 |np| ++ " recorded in current period."]
      else []
    | none => []
  let flags4 : List String :=
    match priorT with
    | some prior =>
      let rev_cur := orZ cur.revenue
      let rev_pri := orOne prior.revenue
      let ar_cur := orZ cur.accounts_receivable
      let ar_pri := orZ prior.accounts_receivable
      if rev_pri > 0 ∧ ar_pri > 0 then
        let rev_growth := (rev_cur - rev_pri) / rev_pri
        let ar_growth := (ar_cur - ar_pri) / ar_pri
        if ar_growth > rev_growth + 0.05 ∧ ar_growth > 0.05 then
          ["⚠️ Accounts Receivable grew " ++ fmtFixed 1 (ar_growth * 100) ++
            "% vs Revenue growth of " ++ fmtFixed 1 (rev_growth * 100) ++
            "% — possible collection issues."]
        else []
      else []
    | none => []
  let flags5 : List String :=
    match priorT with
    | some prior =>
      let cogs_cur := orZ cur.cogs
      let cogs_pri := orOne prior.cogs
      let inv_cur := orZ cur.inventory
      let inv_pri := orZ prior.inventory
      if cogs_pri > 0 ∧ inv_pri > 0 then
        let cogs_growth := (cogs_cur - cogs_pri) / cogs_pri
        let inv_growth := (inv_cur - inv_pri) / inv_pri
        if inv_growth > cogs_growth + 0.05 ∧ inv_growth > 0.05 then
          ["⚠️ Inventory grew " ++ fmtFixed 1 (inv_growth * 100) ++
            "% vs COGS growth of " ++ fmtFixed 1 (cogs_growth * 100) ++
            "% — possible slow-moving stock."]
        else []
      else []
    | none => []
  let flags6 : List String :=
    match priorT with
    | some prior =>
      let rev_cur := orZ cur.revenue
      let rev_pri := orZ prior.revenue
      match cur.operating_cash_flow, prior.operating_cash_flow with
      | some ocf_cur, some ocf_pri =>
        if rev_cur > rev_pri ∧ ocf_cur < ocf_pri then
          ["⚠️ Revenue growing but Operating Cash Flow declined from $" ++
            fmtComma0 ocf_pri ++ " to $" ++ fmtComma0 ocf_cur ++
            " — quality of earnings concern."]
        else []
      | _, _ => []
    | none => []
  let flags := flags1 ++ flags2 ++ flags3 ++ flags4 ++ flags5 ++ flags6
  match metrics.lookup "expense_growth", metrics.lookup "revenue_growth" with
  | some exp_metric, some rev_metric =>
    if orZ exp_metric.current > orZ rev_metric.current + 2 then
      match exp_metric.current, rev_metric.current with
      | some e, some r =>
        .ok (flags ++
          ["⚠️ Operating expenses (" ++ fmtFixed 1 e ++
            "% growth) growing faster than revenue (" ++ fmtFixed 1 r ++
            "% growth) — margin pressure."])
      | _, _ => .error fmtNoneTypeError
    else .ok flags
  | _, _ => .ok flags

/-- `benchmark_status` from `benchmarks/ato_fetcher.py`. -/
def benchmark_status (actual_pct : Option ℚ) (low high : ℚ)
    (_higher_is_better : Bool := true) : String :=
  match actual_pct with
  | none => "grey"
  | some a =>
    if low ≤ a ∧ a ≤ high then "green"
    else
      let range_width := max (high - low) 1
      let deviation_pct :=
        if a < low then (low - a) / range_width * 100
        else (a - high) / range_width * 100
      if deviation_pct ≤ 20 then "amber" else "red"

/-- `apply_ato_benchmarks`: overwrites the status of the two margin metrics
with their benchmark status when the metric has a value and a benchmark range
exists (modelled as a map over the metric dict's entries). -/
def apply_ato_benchmarks (metrics : List (String × MetricResult))
    (industry_benchmarks : Benchmarks) : List (String × MetricResult) :=
  metrics.map (fun nm_m =>
    if nm_m.1 = "gross_profit_margin" then
      match nm_m.2.current, industry_benchmarks.gross_profit_margin with
      | some c, some bm =>
        let st := benchmark_status (some c) bm.low bm.high
        (nm_m.1,
         { nm_m.2 with
           benchmark_low := some bm.low
           benchmark_high := some bm.high
           status := st
           benchmark_status := st })
      | _, _ => nm_m
    else if nm_m.1 = "net_profit_margin" then
      match nm_m.2.current, industry_benchmarks.net_profit_margin with
      | some c, some bm =>
        let st := benchmark_status (some c) bm.low bm.high
        (nm_m.1,
         { nm_m.2 with
           benchmark_low := some bm.low
           benchmark_high := some bm.high
           status := st
           benchmark_status := st })
      | _, _ => nm_m
    else nm_m)

/-- `calculate_benchmark_comparisons`. -/
def calculate_benchmark_comparisons (cur : PeriodRecord)
    (industry_benchmarks : Option Benchmarks) : List (String × BenchComparison) :=
  if !truthy cur.revenue then []
  else
    match industry_benchmarks with
    | none => []
    | some bms =>
      let entry := fun (key : String) (bm : Option BmRange)
          (actual_val : Option ℚ) (label : String) =>
        match bm with
        | some b =>
          [(key,
            ({ label := label
               actual_pct := if truthy actual_val then pct actual_val cur.revenue else none
               benchmark_low := some b.low
               benchmark_high := some b.high } : BenchComparison))]
        | none => []
      entry "cost_of_sales" bms.cost_of_sales cur.cogs "Cost of Sales" ++
      entry "labour" bms.labour cur.operating_expenses "Labour / Wages" ++
      entry "rent" bms.rent none "Rent" ++
      entry "motor_vehicle" bms.motor_vehicle none "Motor Vehicle Expenses"

/-! ### Orchestration (`run_analysis`) -/

/-- The per-record mutation `run_analysis` performs up front: caches the
component-derived EBIT figures onto the period dict under `_ebit_computed`,
`_ebitda_computed` and `_ebit_components` whenever EBIT could be computed
(i.e. `net_profit` is present). -/
def enrich_period (period_data : PeriodRecord) : PeriodRecord :=
  match compute_ebit_from_components period_data with
  | (some ebit, ebitda, components, _) =>
    { period_data with ebit_computed := some ebit
                       ebitda_computed := ebitda
                       ebit_components := components }
  | (none, _, _, _) => period_data

/-- The five metric groups combined, in `run_analysis` order (dict `update`
with pairwise-distinct keys = list concatenation). -/
def all_metric_groups (cur prior prior2 : PeriodRecord) :
    List (String × MetricResult) :=
  calculate_liquidity cur prior prior2 ++
  calculate_profitability cur prior prior2 ++
  calculate_efficiency cur prior prior2 ++
  calculate_leverage cur prior prior2 ++
  calculate_growth cur prior prior2

/-- The metrics dict as assembled inside `run_analysis`, including the
benchmark overlay. -/
def run_analysis_metrics (financial_data : FinData)
    (industry_benchmarks : Option Benchmarks) : List (String × MetricResult) :=
  let cur := (financial_data.current.map enrich_period).getD {}
  let prior := (financial_data.prior.map enrich_period).getD {}
  let prior2 := (financial_data.prior2.map enrich_period).getD {}
  let all_metrics := all_metric_groups cur prior prior2
  match industry_benchmarks with
  | some bms => apply_ato_benchmarks all_metrics bms
  | none => all_metrics

/-- `run_analysis`: the main entry point.  Returns the analysis outcome
(`Except` because `detect_red_flags` can raise, see `fmtNoneTypeError`)
together with the post-call state of the input `financial_data` — the input
records are mutated in place by the EBIT pre-computation loop before any
metric is calculated. -/
def run_analysis (financial_data : FinData)
    (industry_benchmarks : Option Benchmarks := none) :
    Except String AnalysisResult × FinData :=
  let post : FinData :=
    { financial_data with
      current := financial_data.current.map enrich_period
      prior := financial_data.prior.map enrich_period
      prior2 := financial_data.prior2.map enrich_period }
  let cur := post.current.getD {}
  let all_metrics := run_analysis_metrics financial_data industry_benchmarks
  match detect_red_flags cur post.prior post.prior2 all_metrics with
  | .error e => (.error e, post)
  | .ok red_flags =>
    let self_checks := run_self_checks post
    (.ok
      { metrics := all_metrics
        red_flags := red_flags
        period_labels := financial_data.period_labels.getD ["Current", "Prior"]
        raw_current := post.current
        raw_prior := post.prior
        raw_prior2 := post.prior2
        benchmark_comparisons := calculate_benchmark_comparisons cur industry_benchmarks
        self_checks := self_checks
        has_self_check_fails := self_checks.any (fun c => c.status == "fail")
        has_self_check_warns := self_checks.any (fun c => c.status == "warn") },
     post)

/-- Checks the null-value/grey-status discipline over a metrics dict, with
the expense-growth metric exempted (see the C3 analysis): every other entry
with a None current value must carry status grey. -/
def null_grey_except_expense (metrics : List (String × MetricResult)) : Bool :=
  metrics.all (fun nm_m =>
    nm_m.1 == "expense_growth" || nm_m.2.current.isSome ||
      nm_m.2.status == "grey")

/-- Equality of every parsed/canonical field of two period records — all
fields except the three `_ebit_*` cache keys `run_analysis` writes. -/
def same_parsed_fields (p q : PeriodRecord) : Prop :=
  q.revenue = p.revenue ∧ q.cogs = p.cogs ∧ q.gross_profit = p.gross_profit ∧
  q.operating_expenses = p.operating_expenses ∧
  q.depreciation = p.depreciation ∧
  q.interest_expense = p.interest_expense ∧ q.tax_expense = p.tax_expense ∧
  q.net_profit = p.net_profit ∧ q.ebit = p.ebit ∧ q.ebitda = p.ebitda ∧
  q.cash = p.cash ∧ q.accounts_receivable = p.accounts_receivable ∧
  q.inventory = p.inventory ∧ q.current_assets = p.current_assets ∧
  q.non_current_assets = p.non_current_assets ∧
  q.total_assets = p.total_assets ∧
  q.accounts_payable = p.accounts_payable ∧
  q.current_liabilities = p.current_liabilities ∧
  q.non_current_liabilities = p.non_current_liabilities ∧
  q.total_liabilities = p.total_liabilities ∧ q.equity = p.equity ∧
  q.total_debt = p.total_debt ∧
  q.operating_cash_flow = p.operating_cash_flow ∧
  q.investing_cash_flow = p.investing_cash_flow ∧
  q.financing_cash_flow = p.financing_cash_flow ∧
  q.inventory_source = p.inventory_source ∧
  q.interest_items = p.interest_items ∧ q.tax_items = p.tax_items ∧
  q.dep_items = p.dep_items

/-! ## Xero parser (`parser/xero_parser.py`)

A statement table is modelled as its label column paired with the cleaned
(`_clean_amount`-parsed) cell of the one period column selected by
`col_idx`/`skip_cols`; the period-ordering and reference-column machinery
that chooses the column operates upstream of everything proved here. -/


/-- One table row: raw label text and the selected column's cleaned value. -/
abbrev Row := String × Option ℚ

/-- A statement table. -/
abbrev Table := List Row

namespace Xero

/-- `SUBTOTAL_KEYWORDS`. -/
def SUBTOTAL_KEYWORDS : List String :=
  ["total", "subtotal", "gross profit", "net profit", "net loss", "net income",
   "net revenue", "net sales"]

/-- `REVENUE_KEYWORDS`. -/
def REVENUE_KEYWORDS : List String :=
  ["revenue", "income", "sales", "turnover", "fees", "service income",
   "trading income", "gross receipts", "total income", "total revenue",
   "grant income", "other income"]

/-- `REVENUE_TOTAL_KEYWORDS`. -/
def REVENUE_TOTAL_KEYWORDS : List String :=
  ["total revenue", "total income", "total sales", "total trading income",
   "total fees", "total service income", "total turnover", "gross income",
   "total receipts", "total gross receipts"]

/-- `CASH_KEYWORDS`. -/
def CASH_KEYWORDS : List String :=
  ["cash", "bank", "cash and cash equivalents", "cash at bank"]

/-- `RECEIVABLES_KEYWORDS`. -/
def RECEIVABLES_KEYWORDS : List String :=
  ["accounts receivable", "debtors", "trade receivables", "receivables",
   "trade debtors", "sundry debtors"]

/-- `INVENTORY_KEYWORDS` (only consulted inside the Current Assets section). -/
def INVENTORY_KEYWORDS : List String :=
  ["inventory", "stock on hand", "closing stock", "finished goods",
   "raw materials", "work in progress", "wip", "trading stock", "stock"]

/-- `CURRENT_ASSETS_KEYWORDS`. -/
def CURRENT_ASSETS_KEYWORDS : List String :=
  ["current assets", "total current assets"]

/-- `NON_CURRENT_ASSETS_KEYWORDS`. -/
def NON_CURRENT_ASSETS_KEYWORDS : List String :=
  ["non-current assets", "fixed assets", "total non-current assets",
   "plant and equipment", "property plant"]

/-- `TOTAL_ASSETS_KEYWORDS`. -/
def TOTAL_ASSETS_KEYWORDS : List String := ["total assets"]

/-- `CURRENT_LIABILITIES_KEYWORDS`. -/
def CURRENT_LIABILITIES_KEYWORDS : List String :=
  ["current liabilities", "total current liabilities"]

/-- `PAYABLES_KEYWORDS`. -/
def PAYABLES_KEYWORDS : List String :=
  ["accounts payable", "creditors", "trade payables", "trade creditors",
   "sundry creditors"]

/-- `NON_CURRENT_LIABILITIES_KEYWORDS`. -/
def NON_CURRENT_LIABILITIES_KEYWORDS : List String :=
  ["non-current liabilities", "long-term liabilities",
   "total non-current liabilities"]

/-- `TOTAL_LIABILITIES_KEYWORDS`. -/
def TOTAL_LIABILITIES_KEYWORDS : List String := ["total liabilities"]

/-- `EQUITY_KEYWORDS`. -/
def EQUITY_KEYWORDS : List String :=
  ["equity", "total equity", "shareholders equity", "net assets", "owners equity"]

/-- `DEBT_KEYWORDS`. -/
def DEBT_KEYWORDS : List String :=
  ["loans", "borrowings", "bank loan", "term loan", "line of credit", "overdraft"]

/-- `_matches_keywords`: case-insensitive substring match after stripping. -/
def matches_keywords (text : String) (keywords : List String) : Bool :=
  let t := pyStrip (pyLower text)
  keywords.any (fun kw => strIn (pyLower kw) t)

/-- `_is_subtotal_row`. -/
def is_subtotal_row (label : String) : Bool :=
  let label_lower := pyStrip (pyLower label)
  SUBTOTAL_KEYWORDS.any (fun kw => strIn kw label_lower)

/-- The row loop of `_find_value`, carrying the `first_match` and
`first_subtotal` accumulators. -/
def find_value_loop (keywords : List String) :
    Table → Option ℚ → Option ℚ → Option ℚ × Option ℚ
  | [], first_match, first_subtotal => (first_match, first_subtotal)
  | row :: rest, first_match, first_subtotal =>
    let label := pyStrip row.1
    if matches_keywords label keywords then
      match row.2 with
      | some val =>
        let fm := if first_match = none then some val else first_match
        let fs := if is_subtotal_row label ∧ first_subtotal = none
          then some val else first_subtotal
        find_value_loop keywords rest fm fs
      | none => find_value_loop keywords rest first_match first_subtotal
    else find_value_loop keywords rest first_match first_subtotal

/-- `_find_value`: returns the first subtotal-flagged keyword match if any,
else the first keyword match. -/
def find_value (df : Table) (keywords : List String) : Option ℚ :=
  let r := find_value_loop keywords df none none
  match r.2 with
  | some v => some v
  | none => r.1

/-- `_find_value_prefer_subtotal`: explicit total keywords first, then the
broader keyword set. -/
def find_value_prefer_subtotal (df : Table)
    (total_keywords fallback_keywords : List String) : Option ℚ :=
  match find_value df total_keywords with
  | some result => some result
  | none => find_value df fallback_keywords

/-- The keyword-matching rows that carry a value, in table order (a
declarative view of `_find_value`'s scan, used to characterize it). -/
def matching_values (df : Table) (keywords : List String) : List (String × ℚ) :=
  df.filterMap (fun row =>
    let label := pyStrip row.1
    if matches_keywords label keywords then row.2.map (fun v => (label, v))
    else none)

/-- `a if a is not None else b`. -/
def keepFirst (a b : Option ℚ) : Option ℚ :=
  match a with
  | some x => some x
  | none => b

/-- Value of the first matching row, if any. -/
def first_match_value (df : Table) (keywords : List String) : Option ℚ :=
  (matching_values df keywords).head?.map (·.2)

/-- Value of the first subtotal-flagged matching row, if any. -/
def first_subtotal_value (df : Table) (keywords : List String) : Option ℚ :=
  (((matching_values df keywords).filter
      (fun r => is_subtotal_row r.1)).head?).map (·.2)

/-- The extractor behaviour the specification describes (last-wins): value of
the last subtotal-flagged matching row, else of the last matching row. -/
def find_value_spec_lastwins (df : Table) (keywords : List String) : Option ℚ :=
  keepFirst
    ((((matching_values df keywords).filter
        (fun r => is_subtotal_row r.1)).getLast?).map (·.2))
    (((matching_values df keywords).getLast?).map (·.2))


/-! ### Balance sheet extraction (`_extract_balance_sheet_data`) -/

/-- One entry of the `bs_line_items` audit list. -/
structure BSLineItem where
  label : String
  value : ℚ
  source : String
  subsection : String
  is_subtotal : Bool
  deriving DecidableEq, Repr

/-- The canonical fields `_extract_balance_sheet_data` writes (`none` =
key absent; every value stored during the row loop is non-None).
`inventory_source` models the `_inventory_source` key. -/
structure BSData where
  cash : Option ℚ := none
  accounts_receivable : Option ℚ := none
  inventory : Option ℚ := none
  current_assets : Option ℚ := none
  non_current_assets : Option ℚ := none
  total_assets : Option ℚ := none
  accounts_payable : Option ℚ := none
  current_liabilities : Option ℚ := none
  non_current_liabilities : Option ℚ := none
  total_liabilities : Option ℚ := none
  equity : Option ℚ := none
  total_debt : Option ℚ := none
  inventory_source : Option String := none
  deriving DecidableEq, Repr

/-- The section-tracking state walked over the balance-sheet rows. -/
structure BSState where
  in_current_assets : Bool := false
  in_non_current_assets : Bool := false
  in_current_liabilities : Bool := false
  in_equity : Bool := false
  data : BSData := {}
  line_items : List BSLineItem := []
  deriving DecidableEq, Repr

/-- Cash capture guard of the row loop (`if "cash" not in data and ...`). -/
def cap_cash (label : String) (v : ℚ) (d : BSData) : BSData :=
  if d.cash = none ∧ matches_keywords label CASH_KEYWORDS then
    { d with cash := some v } else d

/-- Accounts Receivable capture guard. -/
def cap_receivables (label : String) (v : ℚ) (d : BSData) : BSData :=
  if d.accounts_receivable = none ∧
      matches_keywords label RECEIVABLES_KEYWORDS then
    { d with accounts_receivable := some v } else d

/-- Inventory capture guard — ONLY fires inside the Current Assets section,
and records the provenance string alongside the value. -/
def cap_inventory (in_current_assets : Bool) (label : String) (v : ℚ)
    (d : BSData) : BSData :=
  if d.inventory = none ∧ in_current_assets ∧
      matches_keywords label INVENTORY_KEYWORDS then
    { d with inventory := some v
             inventory_source :=
               some ("balance_sheet/current_assets (" ++ label ++ ")") }
  else d

/-- Current-assets-subtotal capture guard. -/
def cap_current_assets (label : String) (v : ℚ) (d : BSData) : BSData :=
  if d.current_assets = none ∧
      matches_keywords label CURRENT_ASSETS_KEYWORDS then
    { d with current_assets := some v } else d

/-- Non-current-assets capture guard. -/
def cap_non_current_assets (in_non_current_assets : Bool) (label : String)
    (v : ℚ) (d : BSData) : BSData :=
  if d.non_current_assets = none ∧
      matches_keywords label NON_CURRENT_ASSETS_KEYWORDS then
    (if is_subtotal_row label ∨ in_non_current_assets then
      { d with non_current_assets := some v } else d)
  else d

/-- Total-assets capture guard. -/
def cap_total_assets (label : String) (v : ℚ) (d : BSData) : BSData :=
  if d.total_assets = none ∧ matches_keywords label TOTAL_ASSETS_KEYWORDS then
    { d with total_assets := some v } else d

/-- Accounts Payable capture guard. -/
def cap_payables (label : String) (v : ℚ) (d : BSData) : BSData :=
  if d.accounts_payable = none ∧ matches_keywords label PAYABLES_KEYWORDS then
    { d with accounts_payable := some v } else d

/-- Current-liabilities capture guard. -/
def cap_current_liabilities (label : String) (v : ℚ) (d : BSData) : BSData :=
  if d.current_liabilities = none ∧
      matches_keywords label CURRENT_LIABILITIES_KEYWORDS then
    { d with current_liabilities := some v } else d

/-- Non-current-liabilities capture guard. -/
def cap_non_current_liabilities (label : String) (v : ℚ) (d : BSData) : BSData :=
  if d.non_current_liabilities = none ∧
      matches_keywords label NON_CURRENT_LIABILITIES_KEYWORDS then
    { d with non_current_liabilities := some v } else d

/-- Total-liabilities capture guard. -/
def cap_total_liabilities (label : String) (v : ℚ) (d : BSData) : BSData :=
  if d.total_liabilities = none ∧
      matches_keywords label TOTAL_LIABILITIES_KEYWORDS then
    { d with total_liabilities := some v } else d

/-- Equity capture guard. -/
def cap_equity (in_equity : Bool) (label : String) (v : ℚ) (d : BSData) :
    BSData :=
  if d.equity = none ∧ matches_keywords label EQUITY_KEYWORDS then
    (if is_subtotal_row label ∨ in_equity then
      { d with equity := some v } else d)
  else d

/-- Total-debt capture guard. -/
def cap_total_debt (label : String) (v : ℚ) (d : BSData) : BSData :=
  if d.total_debt = none ∧ matches_keywords label DEBT_KEYWORDS then
    { d with total_debt := some v } else d

/-- The "Record line item" tail of the row loop: tags the row with the active
subsection, appends it to the audit list, and runs the capture guards in
source order. -/
def bs_record_line (st : BSState) (label : String) (v : ℚ) : BSState :=
  let subsection :=
    if st.in_current_assets then "current_assets"
    else if st.in_non_current_assets then "non_current_assets"
    else if st.in_current_liabilities then "current_liabilities"
    else if st.in_equity then "equity"
    else "unknown"
  let item : BSLineItem :=
    { label := label, value := v, source := "balance_sheet"
      subsection := subsection, is_subtotal := is_subtotal_row label }
  let d :=
    cap_total_debt label v
      (cap_equity st.in_equity label v
        (cap_total_liabilities label v
          (cap_non_current_liabilities label v
            (cap_current_liabilities label v
              (cap_payables label v
                (cap_total_assets label v
                  (cap_non_current_assets st.in_non_current_assets label v
                    (cap_current_assets label v
                      (cap_inventory st.in_current_assets label v
                        (cap_receivables label v
                          (cap_cash label v st.data)))))))))))
  { st with data := d, line_items := st.line_items ++ [item] }

/-- One iteration of the `_extract_balance_sheet_data` row loop: section
transitions on header rows (no value), section-exiting captures on
`Total ...` rows, then the field-capture guards. -/
def bs_step (st : BSState) (row : Row) : BSState :=
  let label := pyStrip row.1
  let ll := pyLower label
  match row.2 with
  | none =>
    if (strIn "non-current assets" ll || strIn "noncurrent assets" ll ||
        strIn "fixed assets" ll || strIn "plant and equipment" ll) &&
        !strIn "total" ll then
      { st with in_current_assets := false, in_non_current_assets := true
                in_current_liabilities := false, in_equity := false }
    else if strIn "current assets" ll && !strIn "non" ll && !strIn "total" ll then
      { st with in_current_assets := true, in_non_current_assets := false
                in_current_liabilities := false, in_equity := false }
    else if strIn "current liabilities" ll && !strIn "non" ll &&
        !strIn "total" ll then
      { st with in_current_assets := false, in_non_current_assets := false
                in_current_liabilities := true, in_equity := false }
    else if strIn "non-current liabilities" ll ||
        strIn "long-term liabilities" ll then
      { st with in_current_liabilities := false }
    else if (strIn "equity" ll || strIn "net assets" ll ||
        strIn "shareholders" ll) && !strIn "total" ll then
      { st with in_current_assets := false, in_non_current_assets := false
                in_current_liabilities := false, in_equity := true }
    else st
  | some v =>
    if strIn "total current assets" ll then
      { st with data := { st.data with current_assets := some v }
                in_current_assets := false }
    else if strIn "total non-current assets" ll ||
        strIn "total fixed assets" ll then
      { st with data := { st.data with non_current_assets := some v }
                in_non_current_assets := false }
    else if strIn "total current liabilities" ll then
      { st with data := { st.data with current_liabilities := some v }
                in_current_liabilities := false }
    else if strIn "total non-current liabilities" ll then
      let ncl := keepFirst st.data.non_current_liabilities (some v)
      { st with data := { st.data with non_current_liabilities := ncl } }
    else if strIn "total assets" ll && !strIn "non" ll then
      { st with data := { st.data with total_assets := some v } }
    else if strIn "total liabilities" ll && !strIn "non-current" ll &&
        !strIn "current" ll then
      { st with data := { st.data with total_liabilities := some v } }
    else bs_record_line st label v

/-- The provenance string recorded when inventory is captured from a
Current-Assets-section row. -/
def ca_tagged (s : String) : Prop :=
  ∃ lbl, s = "balance_sheet/current_assets (" ++ lbl ++ ")"

/-- Invariant of the row loop: inventory and its provenance are either both
unset, or were set together by the Current-Assets-section capture. -/
def bs_inv (d : BSData) : Prop :=
  (d.inventory = none ∧ d.inventory_source = none) ∨
  (d.inventory.isSome = true ∧ ∃ s, d.inventory_source = some s ∧ ca_tagged s)


/-- Post-loop inventory fallback: if inventory was never found in the
Current Assets section, it stays None and the provenance is `not_found`
(explicitly NOT taken from a P&L Closing Stock line). -/
def bs_post_inventory (d : BSData) : BSData :=
  if d.inventory = none then
    { d with inventory_source := some "not_found" } else d

/-- Post-loop current-assets fallback: sum of the identified components. -/
def bs_post_current_assets (d : BSData) : BSData :=
  if d.current_assets = none then
    (let parts := [d.cash, d.accounts_receivable, d.inventory].filterMap id
     if parts ≠ [] then { d with current_assets := some parts.sum } else d)
  else d

/-- Post-loop total-assets fallback. -/
def bs_post_total_assets (d : BSData) : BSData :=
  if d.total_assets = none then
    (match d.current_assets, d.non_current_assets with
     | some ca, some nca => { d with total_assets := some (ca + nca) }
     | _, _ => d)
  else d

/-- Post-loop total-liabilities fallback. -/
def bs_post_total_liabilities (d : BSData) : BSData :=
  if d.total_liabilities = none then
    (match d.current_liabilities, d.non_current_liabilities with
     | some cl, some ncl => { d with total_liabilities := some (cl + ncl) }
     | _, _ => d)
  else d

/-- `_extract_balance_sheet_data`: the row loop followed by the fallback
derivations, in source order.  Returns the canonical dict together with the
`_bs_line_items` audit list. -/
def extract_balance_sheet_data (df : Table) : BSData × List BSLineItem :=
  let st := df.foldl bs_step {}
  (bs_post_total_liabilities (bs_post_total_assets
    (bs_post_current_assets (bs_post_inventory st.data))), st.line_items)


end Xero

/-! ## PDF parser (`parser/pdf_parser.py`) -/

namespace Pdf

/-- `SUBTOTAL_KEYWORDS` (the PDF parser's shorter list). -/
def SUBTOTAL_KEYWORDS : List String :=
  ["total", "subtotal", "gross profit", "net profit", "net loss", "net income"]

/-- `_is_subtotal_row` (no stripping, unlike the Xero parser's). -/
def is_subtotal_row (label : String) : Bool :=
  SUBTOTAL_KEYWORDS.any (fun kw => strIn kw (pyLower label))

/-- `_keyword_match` (lowercases but does not strip). -/
def keyword_match (text : String) (keywords : List String) : Bool :=
  let t := pyLower text
  keywords.any (fun kw => strIn (pyLower kw) t)

/-- `INVENTORY_KEYWORDS` — "for use in BS current_assets section ONLY". -/
def INVENTORY_KEYWORDS : List String :=
  ["inventory", "stock on hand", "closing stock", "finished goods",
   "raw materials", "work in progress", "wip", "trading stock", "stock"]

/-- `SECTION_KEYWORDS`, insertion-ordered (inventory is deliberately not a
key of this dict). -/
def SECTION_KEYWORDS_LIST : List (String × List String) :=
  [("revenue", ["total revenue", "total income", "total sales", "revenue",
    "sales", "turnover", "total trading income"]),
   ("cogs", ["total cost of sales", "total cost of goods", "total direct costs",
    "cost of sales", "cost of goods", "direct costs"]),
   ("gross_profit", ["gross profit"]),
   ("operating_expenses", ["total expenses", "total operating expenses",
    "operating expenses", "total overheads"]),
   ("ebit", ["ebit", "operating profit", "profit from operations"]),
   ("depreciation", ["depreciation", "amortisation", "amortization", "dep &",
    "depreciation and amortisation", "d&a", "right of use",
    "rou asset depreciation"]),
   ("ebitda", ["ebitda"]),
   ("interest_expense", ["interest expense", "finance costs", "interest paid",
    "finance charge", "loan interest", "bank charge", "borrowing cost"]),
   ("tax_expense", ["income tax", "tax expense", "taxation", "company tax",
    "provision for tax"]),
   ("net_profit", ["net profit", "net income", "profit after tax",
    "profit before tax", "net loss"]),
   ("cash", ["cash at bank", "cash and cash equivalents", "bank balances",
    "cash"]),
   ("accounts_receivable", ["accounts receivable", "trade receivables",
    "debtors"]),
   ("current_assets", ["total current assets"]),
   ("non_current_assets", ["total non-current assets", "total fixed assets"]),
   ("total_assets", ["total assets"]),
   ("accounts_payable", ["accounts payable", "trade payables", "creditors"]),
   ("current_liabilities", ["total current liabilities"]),
   ("non_current_liabilities", ["total non-current liabilities"]),
   ("total_liabilities", ["total liabilities"]),
   ("equity", ["total equity", "net assets", "shareholders equity"]),
   ("total_debt", ["total loans", "total borrowings", "bank loans"]),
   ("operating_cash_flow", ["net cash from operating", "cash from operations",
    "operating cash flow"]),
   ("investing_cash_flow", ["net cash from investing", "investing activities"]),
   ("financing_cash_flow", ["net cash from financing", "financing activities"])]

/-- The data dict built by `_parse_tables_to_data`: canonical-field entries
(values are never None when stored, so a plain association list) plus the
`_inventory_source` key (the `_column_info` bookkeeping entry is UI-only and
not modelled). -/
structure PdfTableData where
  fields : List (String × ℚ) := []
  inventory_source : Option String := none
  deriving DecidableEq, Repr

/-- The `for field, keywords in SECTION_KEYWORDS.items()` loop of
`_parse_tables_to_data`: the first field that is absent and keyword-matches
is assigned (when the cell parses) and the loop breaks.  The
`is_subtotal_row label or field not in data` condition on revenue/cogs is
translated literally (its second disjunct holds by the guard). -/
def pdf_field_step (d : PdfTableData) (label : String) (cell : Option ℚ) :
    PdfTableData :=
  match SECTION_KEYWORDS_LIST.find?
      (fun fk => (d.fields.lookup fk.1).isNone && keyword_match label fk.2) with
  | none => d
  | some fk =>
    match cell with
    | none => d
    | some val =>
      if fk.1 = "revenue" ∨ fk.1 = "cogs" then
        (if is_subtotal_row label ∨ d.fields.lookup fk.1 = none then
          { d with fields := (fk.1, val) :: d.fields }
        else d)
      else { d with fields := (fk.1, val) :: d.fields }

/-- One row of the `_parse_tables_to_data` loop.  The inventory branch fires
on a keyword match from ANY table row, with no section tracking: a positive
value is captured with a `table_extraction (...)` provenance, and the `continue`
keeps inventory-keyword rows out of the generic field loop. -/
def pdf_row_step (d : PdfTableData) (row : Row) : PdfTableData :=
  let label := pyStrip row.1
  if label = "" ∨ pyLower label = "nan" then d
  else if keyword_match label INVENTORY_KEYWORDS then
    (if d.fields.lookup "inventory" = none then
      (match row.2 with
       | some val =>
         if val > 0 then
           { d with fields := ("inventory", val) :: d.fields
                    inventory_source :=
                      some ("table_extraction (" ++ label.take 40 ++ ")") }
         else d
       | none => d)
    else d)
  else pdf_field_step d label row.2

/-- `_parse_tables_to_data` over the pre-projected tables (each table is its
label column paired with the cleaned first non-reference value column; empty
or single-column tables are dropped upstream by the column classifier). -/
def parse_tables_to_data (tables : List Table) : PdfTableData :=
  tables.foldl (fun d tbl => tbl.foldl pdf_row_step d) {}

/-- Invariant: the inventory entry and its provenance are set together, and
only by the `table_extraction` capture with a positive value. -/
def pdf_inv (d : PdfTableData) : Prop :=
  (d.fields.lookup "inventory" = none ∧ d.inventory_source = none) ∨
  (∃ lbl v, d.fields.lookup "inventory" = some v ∧ 0 < v ∧
    d.inventory_source = some ("table_extraction (" ++ lbl ++ ")"))


/-! ### Note-reference heuristic (`_is_likely_note_ref_value`) -/

/-- A character matched by the `[\d,]` regex class. -/
def isNumRunChar (c : Char) : Bool := c.isDigit || c == ','

/-- `re.findall(r"[\d,]{4,}", line)` is non-empty: the line contains four or
more consecutive digit-or-comma characters. -/
def has_large_number_run (line : String) : Bool := go line.data
where
  /-- Scan for a window of four consecutive digit-or-comma characters. -/
  go : List Char → Bool
  | c1 :: rest@(c2 :: c3 :: c4 :: _) =>
    (isNumRunChar c1 && isNumRunChar c2 && isNumRunChar c3 && isNumRunChar c4)
      || go rest
  | _ => false

/-- `_is_likely_note_ref_value(val, line)`: translated branch for branch.
A float equals `int(val)` exactly when its denominator is 1. -/
def is_likely_note_ref_value (val : ℚ) (line : String) : Bool :=
  if ¬(1 ≤ val ∧ val ≤ 50 ∧ val.den = 1) then false
  else if has_large_number_run line then true
  else if strIn "$" line then false
  else true

/-- The predicate as the specification words it: true when the value is an
integer in [1,50] AND the line contains no larger number and no currency
symbol. -/
def note_ref_per_spec (val : ℚ) (line : String) : Bool :=
  (decide (1 ≤ val) && decide (val ≤ 50) && decide (val.den = 1)) &&
    !has_large_number_run line && !strIn "$" line

end Pdf


/-! ## Helper lemmas -/

/-- `List.foldl` preserves any invariant its step preserves. -/
lemma foldl_preserves {α β : Type} (f : α → β → α) (P : α → Prop)
    (h : ∀ a b, P a → P (f a b)) :
    ∀ (l : List β) (a : α), P a → P (l.foldl f a) := by
  intro l
  induction l with
  | nil => intro a ha; simpa
  | cons x xs ih => intro a ha; exact ih _ (h _ _ ha)

namespace Xero

@[simp] lemma keepFirst_none_right (a : Option ℚ) : keepFirst a none = a := by
  cases a <;> rfl

@[simp] lemma keepFirst_none_left (b : Option ℚ) : keepFirst none b = b := rfl

@[simp] lemma keepFirst_some_left (x : ℚ) (b : Option ℚ) :
    keepFirst (some x) b = some x := rfl

lemma keepFirst_keepFirst_some (a : Option ℚ) (v : ℚ) (b : Option ℚ) :
    keepFirst (keepFirst a (some v)) b = keepFirst a (some v) := by
  cases a <;> rfl

/-- The `_find_value` accumulators after scanning `df` are the incoming
accumulators filled (first-write-wins) with the first match and the first
subtotal match in `df`. -/
lemma find_value_loop_spec (kws : List String) :
    ∀ (df : Table) (fm fs : Option ℚ),
      find_value_loop kws df fm fs =
        (keepFirst fm (first_match_value df kws),
         keepFirst fs (first_subtotal_value df kws)) := by
  intro df
  induction df with
  | nil =>
    intro fm fs
    simp [find_value_loop, first_match_value, first_subtotal_value,
      matching_values]
  | cons row rest ih =>
    intro fm fs
    by_cases hm : matches_keywords (pyStrip row.1) kws
    · cases hv : row.2 with
      | none =>
        simp [find_value_loop, hm, hv, ih, first_match_value,
          first_subtotal_value, matching_values]
      | some val =>
        by_cases hs : is_subtotal_row (pyStrip row.1)
        · have hfm : (if fm = none then some val else fm) = keepFirst fm (some val) := by
            cases fm <;> rfl
          have hfs : (if fs = none then some val else fs) = keepFirst fs (some val) := by
            cases fs <;> rfl
          simp [find_value_loop, hm, hv, hs, ih, first_match_value,
            first_subtotal_value, matching_values, hfm, hfs,
            keepFirst_keepFirst_some]
        · have hfm : (if fm = none then some val else fm) = keepFirst fm (some val) := by
            cases fm <;> rfl
          simp [find_value_loop, hm, hv, hs, ih, first_match_value,
            first_subtotal_value, matching_values, hfm,
            keepFirst_keepFirst_some]
    · simp [find_value_loop, hm, ih, first_match_value, first_subtotal_value,
        matching_values]

/-- `_find_value` is first-wins: the first subtotal-flagged matching row's
value, else the first matching row's value. -/
lemma find_value_eq (df : Table) (kws : List String) :
    find_value df kws =
      keepFirst (first_subtotal_value df kws) (first_match_value df kws) := by
  unfold find_value
  rw [find_value_loop_spec]
  simp only [keepFirst_none_left]
  cases first_subtotal_value df kws <;> rfl

lemma bs_inv_of_fields_eq {d d' : BSData}
    (hi : d'.inventory = d.inventory)
    (hs : d'.inventory_source = d.inventory_source)
    (h : bs_inv d) : bs_inv d' := by
  unfold bs_inv at h ⊢
  rw [hi, hs]
  exact h

lemma cap_cash_fields (label : String) (v : ℚ) (d : BSData) :
    (cap_cash label v d).inventory = d.inventory ∧
    (cap_cash label v d).inventory_source = d.inventory_source := by
  unfold cap_cash; split_ifs <;> simp

lemma cap_receivables_fields (label : String) (v : ℚ) (d : BSData) :
    (cap_receivables label v d).inventory = d.inventory ∧
    (cap_receivables label v d).inventory_source = d.inventory_source := by
  unfold cap_receivables; split_ifs <;> simp

lemma cap_current_assets_fields (label : String) (v : ℚ) (d : BSData) :
    (cap_current_assets label v d).inventory = d.inventory ∧
    (cap_current_assets label v d).inventory_source = d.inventory_source := by
  unfold cap_current_assets; split_ifs <;> simp

lemma cap_non_current_assets_fields (b : Bool) (label : String) (v : ℚ)
    (d : BSData) :
    (cap_non_current_assets b label v d).inventory = d.inventory ∧
    (cap_non_current_assets b label v d).inventory_source = d.inventory_source := by
  unfold cap_non_current_assets; split_ifs <;> simp

lemma cap_total_assets_fields (label : String) (v : ℚ) (d : BSData) :
    (cap_total_assets label v d).inventory = d.inventory ∧
    (cap_total_assets label v d).inventory_source = d.inventory_source := by
  unfold cap_total_assets; split_ifs <;> simp

lemma cap_payables_fields (label : String) (v : ℚ) (d : BSData) :
    (cap_payables label v d).inventory = d.inventory ∧
    (cap_payables label v d).inventory_source = d.inventory_source := by
  unfold cap_payables; split_ifs <;> simp

lemma cap_current_liabilities_fields (label : String) (v : ℚ) (d : BSData) :
    (cap_current_liabilities label v d).inventory = d.inventory ∧
    (cap_current_liabilities label v d).inventory_source = d.inventory_source := by
  unfold cap_current_liabilities; split_ifs <;> simp

lemma cap_non_current_liabilities_fields (label : String) (v : ℚ) (d : BSData) :
    (cap_non_current_liabilities label v d).inventory = d.inventory ∧
    (cap_non_current_liabilities label v d).inventory_source = d.inventory_source := by
  unfold cap_non_current_liabilities; split_ifs <;> simp

lemma cap_total_liabilities_fields (label : String) (v : ℚ) (d : BSData) :
    (cap_total_liabilities label v d).inventory = d.inventory ∧
    (cap_total_liabilities label v d).inventory_source = d.inventory_source := by
  unfold cap_total_liabilities; split_ifs <;> simp

lemma cap_equity_fields (b : Bool) (label : String) (v : ℚ) (d : BSData) :
    (cap_equity b label v d).inventory = d.inventory ∧
    (cap_equity b label v d).inventory_source = d.inventory_source := by
  unfold cap_equity; split_ifs <;> simp

lemma cap_total_debt_fields (label : String) (v : ℚ) (d : BSData) :
    (cap_total_debt label v d).inventory = d.inventory ∧
    (cap_total_debt label v d).inventory_source = d.inventory_source := by
  unfold cap_total_debt; split_ifs <;> simp

lemma cap_inventory_inv (b : Bool) (label : String) (v : ℚ) (d : BSData)
    (h : bs_inv d) : bs_inv (cap_inventory b label v d) := by
  unfold cap_inventory
  split_ifs with hc
  · right
    refine ⟨by simp, ⟨"balance_sheet/current_assets (" ++ label ++ ")", by simp, ⟨label, rfl⟩⟩⟩
  · exact h

/-- The record-line tail preserves the inventory-provenance invariant. -/
lemma bs_record_line_inv (st : BSState) (label : String) (v : ℚ)
    (h : bs_inv st.data) : bs_inv (bs_record_line st label v).data := by
  unfold bs_record_line
  apply bs_inv_of_fields_eq (cap_total_debt_fields ..).1 (cap_total_debt_fields ..).2
  apply bs_inv_of_fields_eq (cap_equity_fields ..).1 (cap_equity_fields ..).2
  apply bs_inv_of_fields_eq (cap_total_liabilities_fields ..).1 (cap_total_liabilities_fields ..).2
  apply bs_inv_of_fields_eq (cap_non_current_liabilities_fields ..).1 (cap_non_current_liabilities_fields ..).2
  apply bs_inv_of_fields_eq (cap_current_liabilities_fields ..).1 (cap_current_liabilities_fields ..).2
  apply bs_inv_of_fields_eq (cap_payables_fields ..).1 (cap_payables_fields ..).2
  apply bs_inv_of_fields_eq (cap_total_assets_fields ..).1 (cap_total_assets_fields ..).2
  apply bs_inv_of_fields_eq (cap_non_current_assets_fields ..).1 (cap_non_current_assets_fields ..).2
  apply bs_inv_of_fields_eq (cap_current_assets_fields ..).1 (cap_current_assets_fields ..).2
  apply cap_inventory_inv
  apply bs_inv_of_fields_eq (cap_receivables_fields ..).1 (cap_receivables_fields ..).2
  apply bs_inv_of_fields_eq (cap_cash_fields ..).1 (cap_cash_fields ..).2
  exact h

/-- One row-loop step preserves the inventory-provenance invariant. -/
lemma bs_step_inv (st : BSState) (row : Row) (h : bs_inv st.data) :
    bs_inv (bs_step st row).data := by
  obtain ⟨lbl, cell⟩ := row
  unfold bs_step
  cases cell with
  | none => dsimp only; split_ifs <;> simpa
  | some v =>
    dsimp only
    split_ifs <;>
      first
      | exact bs_record_line_inv st _ v h
      | exact bs_inv_of_fields_eq (by simp) (by simp) h

lemma bs_post_current_assets_fields (d : BSData) :
    (bs_post_current_assets d).inventory = d.inventory ∧
    (bs_post_current_assets d).inventory_source = d.inventory_source := by
  unfold bs_post_current_assets
  dsimp only
  split_ifs <;> simp

lemma bs_post_total_assets_fields (d : BSData) :
    (bs_post_total_assets d).inventory = d.inventory ∧
    (bs_post_total_assets d).inventory_source = d.inventory_source := by
  unfold bs_post_total_assets
  split_ifs
  · cases d.current_assets <;> cases d.non_current_assets <;> simp
  · simp

lemma bs_post_total_liabilities_fields (d : BSData) :
    (bs_post_total_liabilities d).inventory = d.inventory ∧
    (bs_post_total_liabilities d).inventory_source = d.inventory_source := by
  unfold bs_post_total_liabilities
  split_ifs
  · cases d.current_liabilities <;> cases d.non_current_liabilities <;> simp
  · simp

/-- After the full extraction, inventory is either absent with provenance
`not_found`, or present with a `balance_sheet/current_assets (<label>)`
provenance — never anything else. -/
lemma extract_bs_inventory_cases (df : Table) :
    ((extract_balance_sheet_data df).1.inventory = none ∧
      (extract_balance_sheet_data df).1.inventory_source = some "not_found") ∨
    ((extract_balance_sheet_data df).1.inventory.isSome = true ∧
      ∃ s, (extract_balance_sheet_data df).1.inventory_source = some s ∧
        ca_tagged s) := by
  have hinv : bs_inv (df.foldl bs_step {}).data :=
    foldl_preserves bs_step (fun st => bs_inv st.data)
      (fun a b hp => bs_step_inv a b hp) df {} (Or.inl ⟨rfl, rfl⟩)
  unfold extract_balance_sheet_data
  have hfields : ∀ d : BSData,
      (bs_post_total_liabilities (bs_post_total_assets
        (bs_post_current_assets d))).inventory = d.inventory ∧
      (bs_post_total_liabilities (bs_post_total_assets
        (bs_post_current_assets d))).inventory_source = d.inventory_source := by
    intro d
    constructor
    · rw [(bs_post_total_liabilities_fields ..).1,
        (bs_post_total_assets_fields ..).1, (bs_post_current_assets_fields ..).1]
    · rw [(bs_post_total_liabilities_fields ..).2,
        (bs_post_total_assets_fields ..).2, (bs_post_current_assets_fields ..).2]
  rcases hinv with ⟨hi, hs⟩ | ⟨hi, s, hs, htag⟩
  · left
    have hpost : (bs_post_inventory (df.foldl bs_step {}).data).inventory = none ∧
        (bs_post_inventory (df.foldl bs_step {}).data).inventory_source =
          some "not_found" := by
      unfold bs_post_inventory
      rw [if_pos hi]
      exact ⟨hi, rfl⟩
    exact ⟨by rw [(hfields ..).1, hpost.1], by rw [(hfields ..).2, hpost.2]⟩
  · right
    have hne : (df.foldl bs_step {}).data.inventory ≠ none :=
      Option.isSome_iff_ne_none.mp hi
    have hpost : bs_post_inventory (df.foldl bs_step {}).data =
        (df.foldl bs_step {}).data := by
      unfold bs_post_inventory
      rw [if_neg hne]
    refine ⟨?_, s, ?_, htag⟩
    · rw [(hfields ..).1, hpost]; exact hi
    · rw [(hfields ..).2, hpost]; exact hs

end Xero

namespace Pdf

lemma section_keywords_no_inventory :
    ∀ fk ∈ SECTION_KEYWORDS_LIST, fk.1 ≠ "inventory" := by decide

lemma pdf_field_step_fields (d : PdfTableData) (label : String)
    (cell : Option ℚ) :
    (pdf_field_step d label cell).fields.lookup "inventory" =
      d.fields.lookup "inventory" ∧
    (pdf_field_step d label cell).inventory_source = d.inventory_source := by
  unfold pdf_field_step
  cases hfind : SECTION_KEYWORDS_LIST.find?
      (fun fk => (d.fields.lookup fk.1).isNone && keyword_match label fk.2) with
  | none => exact ⟨rfl, rfl⟩
  | some fk =>
    have hne : fk.1 ≠ "inventory" :=
      section_keywords_no_inventory fk (List.mem_of_find?_eq_some hfind)
    have hbeq : ("inventory" == fk.1) = false :=
      beq_eq_false_iff_ne.mpr (Ne.symm hne)
    cases cell with
    | none => exact ⟨rfl, rfl⟩
    | some val =>
      dsimp only
      split_ifs <;>
        first
        | exact ⟨rfl, rfl⟩
        | exact ⟨by simp [List.lookup, hbeq], rfl⟩

/-- One table row preserves the inventory-provenance invariant. -/
lemma pdf_row_step_inv (d : PdfTableData) (row : Row) (h : pdf_inv d) :
    pdf_inv (pdf_row_step d row) := by
  unfold pdf_row_step
  dsimp only
  split_ifs with h1 h2 h3
  · exact h
  · cases hc : row.2 with
    | none => simpa using h
    | some val =>
      dsimp only
      split_ifs with hv
      · right
        exact ⟨(pyStrip row.1).take 40, val, by simp [List.lookup], hv, rfl⟩
      · exact h
  · exact h
  · have hf := pdf_field_step_fields d (pyStrip row.1) row.2
    unfold pdf_inv at h ⊢
    rw [hf.1, hf.2]
    exact h

/-- `_parse_tables_to_data` satisfies the inventory-provenance invariant:
inventory is either absent (with no provenance marker — `not_found` is only
written by the text parser), or positive with a `table_extraction (<label>)`
provenance. -/
lemma parse_tables_inv (tables : List Table) :
    pdf_inv (parse_tables_to_data tables) := by
  unfold parse_tables_to_data
  refine foldl_preserves _ pdf_inv ?_ tables {} (Or.inl ⟨rfl, rfl⟩)
  intro a b hp
  exact foldl_preserves pdf_row_step pdf_inv
    (fun x y hx => pdf_row_step_inv x y hx) b a hp

end Pdf

/-! ### Null-value/grey-status lemmas (claim C3) -/

lemma null_grey_entry (nm : String) (m : MetricResult)
    (h : m.current = none → m.status = "grey") :
    (nm == "expense_growth" || m.current.isSome || m.status == "grey") = true := by
  cases hc : m.current with
  | some v => simp [hc]
  | none => simp [hc, h hc]

lemma liquidity_null_grey (c p p2 : PeriodRecord) :
    null_grey_except_expense (calculate_liquidity c p p2) = true := by
  unfold null_grey_except_expense
  rw [List.all_eq_true]
  intro x hx
  unfold calculate_liquidity at hx
  simp only [List.mem_cons, List.not_mem_nil, or_false] at hx
  rcases hx with h | h | h <;> subst h <;>
    refine null_grey_entry _ _ (fun hc => ?_) <;> simp only [] at hc ⊢ <;>
    rw [hc] <;> try rfl

lemma profitability_null_grey (c p p2 : PeriodRecord) :
    null_grey_except_expense (calculate_profitability c p p2) = true := by
  unfold null_grey_except_expense
  rw [List.all_eq_true]
  intro x hx
  unfold calculate_profitability at hx
  simp only [List.mem_cons, List.not_mem_nil, or_false] at hx
  rcases hx with h | h | h | h | h | h <;> subst h <;>
    refine null_grey_entry _ _ (fun hc => ?_) <;> simp only [] at hc ⊢ <;>
    first
    | rfl
    | (rw [hc]; try rfl)

lemma efficiency_null_grey (c p p2 : PeriodRecord) :
    null_grey_except_expense (calculate_efficiency c p p2) = true := by
  unfold null_grey_except_expense
  rw [List.all_eq_true]
  intro x hx
  unfold calculate_efficiency at hx
  simp only [List.mem_cons, List.not_mem_nil, or_false] at hx
  rcases hx with h | h | h | h <;> subst h <;>
    refine null_grey_entry _ _ (fun hc => ?_) <;> simp only [] at hc ⊢ <;>
    first
    | rfl
    | (rw [hc]; rfl)

lemma leverage_null_grey (c p p2 : PeriodRecord) :
    null_grey_except_expense (calculate_leverage c p p2) = true := by
  unfold null_grey_except_expense
  rw [List.all_eq_true]
  intro x hx
  unfold calculate_leverage at hx
  simp only [List.mem_cons, List.not_mem_nil, or_false] at hx
  rcases hx with h | h | h <;> subst h <;>
    refine null_grey_entry _ _ (fun hc => ?_) <;> simp only [] at hc ⊢ <;>
    first
    | rfl
    | (rw [hc]; rfl)

lemma growth_null_grey (c p p2 : PeriodRecord) :
    null_grey_except_expense (calculate_growth c p p2) = true := by
  unfold null_grey_except_expense
  rw [List.all_eq_true]
  intro x hx
  unfold calculate_growth at hx
  split at hx
  · simp at hx
  · simp only [List.mem_cons, List.not_mem_nil, or_false] at hx
    rcases hx with h | h | h | h <;> subst h
    · refine null_grey_entry _ _ (fun hc => ?_)
      simp only [] at hc ⊢
      rw [hc]
      rfl
    · refine null_grey_entry _ _ (fun hc => ?_)
      simp only [] at hc ⊢
      rw [hc]
      rfl
    · simp
    · refine null_grey_entry _ _ (fun hc => ?_)
      simp only [] at hc ⊢
      rw [hc]
      rfl

lemma all_groups_null_grey (c p p2 : PeriodRecord) :
    null_grey_except_expense (all_metric_groups c p p2) = true := by
  have h1 := liquidity_null_grey c p p2
  have h2 := profitability_null_grey c p p2
  have h3 := efficiency_null_grey c p p2
  have h4 := leverage_null_grey c p p2
  have h5 := growth_null_grey c p p2
  unfold null_grey_except_expense at h1 h2 h3 h4 h5 ⊢
  unfold all_metric_groups
  simp [List.all_append, h1, h2, h3, h4, h5]

lemma apply_ato_null_grey (ms : List (String × MetricResult)) (bms : Benchmarks)
    (h : null_grey_except_expense ms = true) :
    null_grey_except_expense (apply_ato_benchmarks ms bms) = true := by
  unfold null_grey_except_expense at h ⊢
  unfold apply_ato_benchmarks
  rw [List.all_eq_true] at h ⊢
  intro x hx
  rw [List.mem_map] at hx
  obtain ⟨y, hy, rfl⟩ := hx
  have hy' := h y hy
  dsimp only
  split_ifs with h1 h2
  · cases hcur : y.2.current with
    | none =>
      cases hbm : bms.gross_profit_margin <;> simp_all
    | some c =>
      cases hbm : bms.gross_profit_margin with
      | none => simp_all
      | some bm => simp [hcur, hbm]
  · cases hcur : y.2.current with
    | none =>
      cases hbm : bms.net_profit_margin <;> simp_all
    | some c =>
      cases hbm : bms.net_profit_margin with
      | none => simp_all
      | some bm => simp [hcur, hbm]
  · exact hy'

/-! ### `enrich_period` lemmas (claim C9) -/

lemma enrich_period_same_parsed (p : PeriodRecord) :
    same_parsed_fields p (enrich_period p) := by
  cases hp : p.net_profit <;>
    simp [enrich_period, compute_ebit_from_components, same_parsed_fields, hp]

lemma enrich_period_none (p : PeriodRecord) (h : p.net_profit = none) :
    enrich_period p = p := by
  simp [enrich_period, compute_ebit_from_components, h]

lemma enrich_period_some (p : PeriodRecord) (np : ℚ)
    (h : p.net_profit = some np) :
    (enrich_period p).ebit_computed =
      some (np + orZ p.interest_expense + orZ p.tax_expense) ∧
    (enrich_period p).ebitda_computed =
      some (np + orZ p.interest_expense + orZ p.tax_expense +
        orZ p.depreciation) := by
  simp [enrich_period, compute_ebit_from_components, h]

/-! ## Claim theorems -/

set_option maxRecDepth 100000 in
/-- C1: the canonical EBIT is recomputed as net_profit + tax_expense +
interest_expense (with the spec's concrete example yielding 150, never
999999), BUT the claim that a parsed EBIT value is never used in any
computed metric is violated by the code: `calculate_leverage` computes
Interest Coverage from `cur.get("_ebit_computed") or _get(cur, "ebit")`, so
with net_profit null (no component EBIT cached by the pipeline), a parsed
ebit = 999999 and interest_expense = 42000, the Interest Coverage current
value is 999999/42000 — taken straight from the parsed statement line,
contradicting the module's own "never from parsed line" documentation. -/
theorem C1_interest_coverage_uses_parsed_ebit :
    (compute_ebit_from_components
      { net_profit := some 100, tax_expense := some 30,
        interest_expense := some 20, ebit := some 999999 }).1 = some 150 ∧
    ((calculate_leverage
        (enrich_period
          { net_profit := none, ebit := some 999999,
            interest_expense := some 42000 }) {} {}).lookup
      "interest_coverage").map (fun m => m.current) =
      some (some (999999 / 42000)) := by
  constructor
  · with_unfolding_all decide
  · have h : ((calculate_leverage
        (enrich_period
          { net_profit := none, ebit := some 999999,
            interest_expense := some 42000 }) {} {}).lookup
      "interest_coverage").map (fun m => m.current) =
        some (safe_div (some 999999) (some 42000)) := by
      with_unfolding_all rfl
    rw [h]
    norm_num [safe_div]

set_option maxRecDepth 100000 in
/-- C2 counterexample: the PDF table extractor accepts an inventory-keyword
row from ANY table row (no section tracking): a table whose only row is
"Inventory: 220000" populates inventory = 220000 with
inventory_source = "table_extraction (Inventory)", which neither starts
with "balance_sheet/current_assets" nor equals "not_found" — refuting the
claim that an inventory-keyword match outside a tracked Current-Assets
section is discarded. -/
theorem C2_counterexample :
    (Pdf.parse_tables_to_data [[("Inventory", some 220000)]]).fields.lookup
      "inventory" = some 220000 ∧
    (Pdf.parse_tables_to_data [[("Inventory", some 220000)]]).inventory_source =
      some "table_extraction (Inventory)" ∧
    (("table_extraction (Inventory)".startsWith
      "balance_sheet/current_assets") = false) ∧
    (("table_extraction (Inventory)" == "not_found") = false) := by
  refine ⟨by with_unfolding_all rfl, by with_unfolding_all decide,
    by with_unfolding_all decide, by with_unfolding_all decide⟩

set_option maxRecDepth 100000 in
/-- C2 (amended): in the Xero balance-sheet parser inventory is populated
only via the Current-Assets-section capture — its provenance is always
"balance_sheet/current_assets (<label>)" when set and "not_found" with a
null inventory otherwise, and a Current-Assets "Inventory: 220000" row is
captured with that provenance; the PDF table extractor, by contrast,
captures a positive inventory-keyword row from any table row, and then its
provenance is "table_extraction (<label>)" (inventory and provenance are
never set any other way there). -/
theorem C2_inventory_section_gating :
    (∀ df : Table,
      ((Xero.extract_balance_sheet_data df).1.inventory = none ∧
        (Xero.extract_balance_sheet_data df).1.inventory_source =
          some "not_found") ∨
      ((Xero.extract_balance_sheet_data df).1.inventory.isSome = true ∧
        ∃ s, (Xero.extract_balance_sheet_data df).1.inventory_source =
          some s ∧ Xero.ca_tagged s)) ∧
    (Xero.extract_balance_sheet_data
      [("Current Assets", none), ("Inventory", some 220000)]).1.inventory =
      some 220000 ∧
    (Xero.extract_balance_sheet_data
      [("Current Assets", none),
       ("Inventory", some 220000)]).1.inventory_source =
      some "balance_sheet/current_assets (Inventory)" ∧
    (∀ tables : List Table, Pdf.pdf_inv (Pdf.parse_tables_to_data tables)) := by
  exact ⟨Xero.extract_bs_inventory_cases, by with_unfolding_all rfl,
    by with_unfolding_all decide, Pdf.parse_tables_inv⟩

set_option maxRecDepth 100000 in
/-- C8 counterexample: for the integer value 5 in a line that also contains
the larger number 1,234,000, `_is_likely_note_ref_value` returns TRUE (the
code treats the co-occurring large figure as evidence that the small integer
is a note reference), while the claim says it must return false there. -/
theorem C8_counterexample :
    Pdf.is_likely_note_ref_value 5 "5 1,234,000" = true ∧
    Pdf.note_ref_per_spec 5 "5 1,234,000" = false := by
  refine ⟨by with_unfolding_all decide, by with_unfolding_all decide⟩

/-- C8 (amended): the note-reference predicate returns true exactly when the
value is an integer in [1,50] AND (the line contains a 4-or-more-character
digit/comma run OR contains no currency symbol); in particular a larger
number alongside the small integer makes it return TRUE, not false. -/
theorem C8_note_ref_characterization (val : ℚ) (line : String) :
    Pdf.is_likely_note_ref_value val line = true ↔
      ((1 ≤ val ∧ val ≤ 50 ∧ val.den = 1) ∧
        (Pdf.has_large_number_run line = true ∨ strIn "$" line = false)) := by
  unfold Pdf.is_likely_note_ref_value
  split_ifs with h1 h2 h3 <;> simp_all

/-- C10: the EBIT component computation cannot distinguish a parsed zero
from a missing value — replacing a null interest_expense (resp. tax_expense,
depreciation) by an explicit 0 leaves the entire result (EBIT, EBITDA,
component breakdown and assumption notes) unchanged, and whenever the
effective interest is 0 the same "not identified" note is attached. -/
theorem C10_zero_indistinguishable_from_missing (p : PeriodRecord) :
    compute_ebit_from_components { p with interest_expense := none } =
      compute_ebit_from_components { p with interest_expense := some 0 } ∧
    compute_ebit_from_components { p with tax_expense := none } =
      compute_ebit_from_components { p with tax_expense := some 0 } ∧
    compute_ebit_from_components { p with depreciation := none } =
      compute_ebit_from_components { p with depreciation := some 0 } ∧
    (∀ np : ℚ, p.net_profit = some np → orZ p.interest_expense = 0 →
      noteNoInterest ∈ (compute_ebit_from_components p).2.2.2) := by
  refine ⟨?_, ?_, ?_, ?_⟩
  · cases hp : p.net_profit <;>
      simp [compute_ebit_from_components, orZ, hp]
  · cases hp : p.net_profit <;>
      simp [compute_ebit_from_components, orZ, hp]
  · cases hp : p.net_profit <;>
      simp [compute_ebit_from_components, orZ, hp]
  · intro np hnp hint
    simp [compute_ebit_from_components, hnp, hint]

/-- C10 witness: a record with net profit 100 and no interest line receives
the "Interest expense not identified" assumption note. -/
theorem C10_witness :
    noteNoInterest ∈
      (compute_ebit_from_components
        ({ net_profit := some 100 } : PeriodRecord)).2.2.2 :=
  (C10_zero_indistinguishable_from_missing
    { net_profit := some 100 }).2.2.2 100 rfl rfl

set_option maxRecDepth 100000 in
/-- C3 counterexample: with current revenue 110, prior revenue 100 and no
operating-expenses figures, the Expense Growth metric produced by the
analysis has a null current value yet status "green" — refuting the claim
that a null current value always yields grey. -/
theorem C3_counterexample :
    ((run_analysis_metrics
      { current := some { revenue := some 110 },
        prior := some { revenue := some 100 } } none).lookup
      "expense_growth").map (fun m => (m.current, m.status)) =
      some (none, "green") := by
  with_unfolding_all decide

/-- C3 (amended): every metric produced by the analysis (all five groups,
after the benchmark overlay) with a null current value has status "grey",
EXCEPT the Expense Growth metric, whose flag-based status can be green or
amber even when its current value is null. -/
theorem C3_null_current_is_grey (fd : FinData) (bm : Option Benchmarks) :
    null_grey_except_expense (run_analysis_metrics fd bm) = true := by
  unfold run_analysis_metrics
  cases bm with
  | none => exact all_groups_null_grey ..
  | some bms => exact apply_ato_null_grey _ _ (all_groups_null_grey ..)

set_option maxRecDepth 100000 in
/-- C4 counterexample: for a record with cash = 100 but a null
current_assets, the Current-Assets-Subtotal check cannot evaluate, yet
`run_self_checks` silently omits it (the result list holds only the P&L,
Gross-Profit and Balance-Sheet checks) instead of reporting a warn naming
the missing field. -/
theorem C4_counterexample :
    (run_self_checks { current := some { cash := some 100 } }).map
      (fun c => c.check_name) =
      ["P&L Balance", "Gross Profit Check", "Balance Sheet Equation"] := by
  with_unfolding_all decide

/-- C4 (amended): the P&L-Balance and Balance-Sheet-Equation checks report
warn with a detail naming exactly the missing fields, and the Gross-Profit
check reports warn when Revenue or COGS is missing; but the Gross-Profit
check is silently skipped when only the parsed gross profit is missing, the
Current-Assets-Subtotal check is silently skipped when current_assets is
missing, and the Revenue-Reasonableness check — even though prior-year data
is present — is silently skipped exactly when either period's revenue is
missing, either revenue is zero, or the prior revenue is negative (the
truthiness guard `if prior_revenue and cur_revenue and prior_revenue > 0`
only filters None, 0 and a negative prior; with a positive prior revenue
the check still runs for a negative current revenue). -/
theorem C4_missing_input_reporting :
    (∀ cur : PeriodRecord, pl_missing cur ≠ [] →
      (check_pl_balance cur).status = "warn" ∧
      (check_pl_balance cur).detail =
        "Cannot perform check — missing: " ++
          String.intercalate ", " (pl_missing cur)) ∧
    (∀ cur : PeriodRecord, bs_missing cur ≠ [] →
      (check_balance_sheet cur).status = "warn" ∧
      (check_balance_sheet cur).detail =
        "Cannot perform check — missing: " ++
          String.intercalate ", " (bs_missing cur)) ∧
    (∀ cur : PeriodRecord, cur.revenue = none ∨ cur.cogs = none →
      (check_gross_profit cur).map (fun c => c.status) = some "warn") ∧
    (∀ cur : PeriodRecord, cur.revenue.isSome = true →
      cur.cogs.isSome = true → cur.gross_profit = none →
      check_gross_profit cur = none) ∧
    (∀ cur : PeriodRecord, cur.current_assets = none →
      check_ca_subtotal cur = none) ∧
    (∀ cur prior : PeriodRecord,
      prior.revenue = none ∨ cur.revenue = none →
      check_revenue_reasonableness cur prior = none) ∧
    (∀ (cur prior : PeriodRecord) (pr cr : ℚ),
      prior.revenue = some pr → cur.revenue = some cr →
      (check_revenue_reasonableness cur prior = none ↔ pr ≤ 0 ∨ cr = 0)) := by
  refine ⟨?_, ?_, ?_, ?_, ?_, ?_, ?_⟩
  · intro cur h
    cases hr : cur.revenue <;> cases hc : cur.cogs <;>
      cases ho : cur.operating_expenses <;> cases hn : cur.net_profit <;>
      simp_all [check_pl_balance, pl_missing]
  · intro cur h
    cases ha : cur.total_assets <;> cases hl : cur.total_liabilities <;>
      cases he : cur.equity <;>
      simp_all [check_balance_sheet, bs_missing]
  · intro cur h
    cases hr : cur.revenue <;> cases hc : cur.cogs <;>
      cases hg : cur.gross_profit <;>
      simp_all [check_gross_profit]
  · intro cur hr hc hg
    cases hr2 : cur.revenue <;> cases hc2 : cur.cogs <;>
      simp_all [check_gross_profit]
  · intro cur h
    simp [check_ca_subtotal, h]
  · intro cur prior h
    cases hp : prior.revenue <;> cases hc : cur.revenue <;>
      simp_all [check_revenue_reasonableness]
  · intro cur prior pr cr hp hc
    simp only [check_revenue_reasonableness, hp, hc]
    by_cases hcond : pr ≠ 0 ∧ cr ≠ 0 ∧ pr > 0
    · rw [if_pos hcond]
      constructor
      · intro hsome
        split at hsome <;> simp at hsome
      · intro hor
        rcases hcond with ⟨h1, h2, h3⟩
        rcases hor with h | h
        · exact absurd h3 (not_lt.mpr h)
        · exact absurd h h2
    · rw [if_neg hcond]
      constructor
      · intro _
        by_cases h0 : pr = 0
        · exact Or.inl (le_of_eq h0)
        · by_cases hcr : cr = 0
          · exact Or.inr hcr
          · push_neg at hcond
            exact Or.inl (hcond h0 hcr)
      · intro _
        rfl

set_option maxRecDepth 100000 in
/-- C4 witness: an empty current record makes the P&L check warn with the
four missing field names in its detail, a record with only cash leaves the
Current-Assets-Subtotal check silently absent, and a zero prior revenue
silently skips the Revenue-Reasonableness check. -/
theorem C4_missing_input_reporting_witness :
    ((check_pl_balance ({} : PeriodRecord)).status = "warn" ∧
      (check_pl_balance ({} : PeriodRecord)).detail =
        "Cannot perform check — missing: Revenue, COGS, Operating Expenses, Net Profit") ∧
    check_ca_subtotal ({ cash := some 100 } : PeriodRecord) = none ∧
    check_revenue_reasonableness ({ revenue := some 50 } : PeriodRecord)
      ({ revenue := some 0 } : PeriodRecord) = none := by
  have h := C4_missing_input_reporting
  refine ⟨?_, h.2.2.2.2.1 { cash := some 100 } rfl, ?_⟩
  · have h1 := h.1 {} (by with_unfolding_all decide)
    exact ⟨h1.1, h1.2.trans (by with_unfolding_all decide)⟩
  · exact (h.2.2.2.2.2.2 { revenue := some 50 } { revenue := some 0 }
      0 50 rfl rfl).mpr (Or.inl le_rfl)

set_option maxRecDepth 100000 in
/-- C5 counterexample: for a revenue table holding the detail rows
"Consulting Income: 1000" and "Other Income: 2000" (no total row resolves,
no row is subtotal-flagged), the Xero field extractor returns 1000 — the
FIRST matching row's value — while the claim's last-wins rule says 2000. -/
theorem C5_counterexample :
    Xero.find_value
      [("Consulting Income", some 1000), ("Other Income", some 2000)]
      Xero.REVENUE_TOTAL_KEYWORDS = none ∧
    Xero.find_value_prefer_subtotal
      [("Consulting Income", some 1000), ("Other Income", some 2000)]
      Xero.REVENUE_TOTAL_KEYWORDS Xero.REVENUE_KEYWORDS = some 1000 ∧
    Xero.find_value_spec_lastwins
      [("Consulting Income", some 1000), ("Other Income", some 2000)]
      Xero.REVENUE_KEYWORDS = some 2000 := by
  refine ⟨by with_unfolding_all decide, by with_unfolding_all decide,
    by with_unfolding_all decide⟩

/-- C5 (amended): when no explicit total-keyword row resolves, the Xero
field extractor returns the value of the FIRST matching row flagged as a
subtotal (label containing one of total/subtotal/gross profit/net profit/
net loss/net income/net revenue/net sales); if no matching row is flagged
it returns the FIRST matching row's value (first-wins, not last-wins). -/
theorem C5_first_wins (df : Table)
    (total_keywords fallback_keywords : List String)
    (h : Xero.find_value df total_keywords = none) :
    Xero.find_value_prefer_subtotal df total_keywords fallback_keywords =
      Xero.keepFirst (Xero.first_subtotal_value df fallback_keywords)
        (Xero.first_match_value df fallback_keywords) := by
  unfold Xero.find_value_prefer_subtotal
  rw [h]
  exact Xero.find_value_eq df fallback_keywords

set_option maxRecDepth 100000 in
/-- C5 witness: instantiating the first-wins characterization on the
two-detail-row revenue table. -/
theorem C5_first_wins_witness :
    Xero.find_value_prefer_subtotal
      [("Consulting Income", some 1000), ("Other Income", some 2000)]
      Xero.REVENUE_TOTAL_KEYWORDS Xero.REVENUE_KEYWORDS =
      Xero.keepFirst
        (Xero.first_subtotal_value
          [("Consulting Income", some 1000), ("Other Income", some 2000)]
          Xero.REVENUE_KEYWORDS)
        (Xero.first_match_value
          [("Consulting Income", some 1000), ("Other Income", some 2000)]
          Xero.REVENUE_KEYWORDS) :=
  C5_first_wins _ _ _ (by with_unfolding_all decide)

set_option maxRecDepth 100000 in
/-- C6 counterexample: a record with inventory_source = "not_found" and
current_liabilities = 380000 but a null current_assets gets Quick Ratio 0.0
(the code substitutes 0 for the missing current assets) while the Current
Ratio is null — the two are NOT numerically equal as the claim states. -/
theorem C6_counterexample :
    ((calculate_liquidity
      { inventory_source := "not_found", current_liabilities := some 380000 }
      {} {}).lookup "quick_ratio").map (fun m => m.current) =
      some (some 0) ∧
    ((calculate_liquidity
      { inventory_source := "not_found", current_liabilities := some 380000 }
      {} {}).lookup "current_ratio").map (fun m => m.current) = some none := by
  constructor
  · have h : ((calculate_liquidity
      { inventory_source := "not_found", current_liabilities := some 380000 }
      {} {}).lookup "quick_ratio").map (fun m => m.current) =
        some (safe_div (some (0 - 0)) (some 380000)) := by
      with_unfolding_all rfl
    rw [h]
    norm_num [safe_div]
  · with_unfolding_all rfl

/-- C6 (amended): for a period record with inventory_source = "not_found",
null inventory (what that provenance implies) and a non-null current_assets,
the Quick Ratio equals the Current Ratio exactly, the explanatory note is
attached to the Quick Ratio metric, and the Inventory Days current value is
null. -/
theorem C6_quick_ratio_fallback (cur prior prior2 : PeriodRecord) (ca : ℚ)
    (hsrc : cur.inventory_source = "not_found")
    (hinv : cur.inventory = none)
    (hca : cur.current_assets = some ca) :
    ((calculate_liquidity cur prior prior2).lookup "quick_ratio").map
        (fun m => m.current) =
      ((calculate_liquidity cur prior prior2).lookup "current_ratio").map
        (fun m => m.current) ∧
    ((calculate_liquidity cur prior prior2).lookup "quick_ratio").map
        (fun m => m.notes) =
      some "Inventory not identified on Balance Sheet — Quick Ratio equals Current Ratio. Inventory Days cannot be calculated." ∧
    ((calculate_efficiency cur prior prior2).lookup "inventory_days").map
        (fun m => m.current) = some none := by
  refine ⟨?_, ?_, ?_⟩
  · simp [calculate_liquidity, List.lookup, hsrc, hinv, hca, orZ]
  · simp [calculate_liquidity, List.lookup, hsrc]
  · simp [calculate_efficiency, List.lookup, hsrc]

set_option maxRecDepth 100000 in
/-- C6 witness: the claim's own example — current_assets 755000 and
current_liabilities 380000 with inventory not found. -/
theorem C6_quick_ratio_fallback_witness :
    ((calculate_liquidity
      { inventory_source := "not_found", inventory := none,
        current_assets := some 755000, current_liabilities := some 380000 }
      {} {}).lookup "quick_ratio").map (fun m => m.current) =
      ((calculate_liquidity
        { inventory_source := "not_found", inventory := none,
          current_assets := some 755000, current_liabilities := some 380000 }
        {} {}).lookup "current_ratio").map (fun m => m.current) :=
  (C6_quick_ratio_fallback _ {} {} 755000 rfl rfl rfl).1

set_option maxRecDepth 100000 in
/-- C7: the red-flag detector is NOT always silently skipped on missing
inputs — with current revenue 80, prior revenue 100 and no operating
expenses, expense growth is null, the expense-vs-revenue rule still fires
(None is coerced to 0, and 0 > −20 + 2), and formatting the null growth
into the flag string raises a TypeError, crashing `run_analysis`. -/
theorem C7_red_flag_crash :
    (run_analysis
      { current := some { revenue := some 80 },
        prior := some { revenue := some 100 } } none).1 =
      Except.error fmtNoneTypeError := by
  with_unfolding_all rfl

set_option maxRecDepth 100000 in
/-- C9 counterexample: `run_analysis` mutates its input — after a call on a
record with net_profit 100, tax 30, interest 20, the input mapping's current
record is no longer equal to what was passed in: the `_ebit_computed` key
now holds 150. -/
theorem C9_counterexample :
    (run_analysis
      { current := some { net_profit := some 100,
                          tax_expense := some 30,
                          interest_expense := some 20 } } none).2 ≠
      ({ current := some { net_profit := some 100,
                           tax_expense := some 30,
                           interest_expense := some 20 } } : FinData) ∧
    ((run_analysis
      { current := some { net_profit := some 100,
                          tax_expense := some 30,
                          interest_expense := some 20 } } none).2.current.map
      (fun p => p.ebit_computed)) = some (some 150) := by
  refine ⟨by with_unfolding_all decide, by with_unfolding_all decide⟩

/-- C9 (amended): `run_analysis` mutates each present period record exactly
by caching the derived EBIT figures: every parsed/canonical field is left
unchanged, records without a net profit are untouched, and records with
net_profit np gain `_ebit_computed` = np + interest + tax and
`_ebitda_computed` = that + depreciation. -/
theorem C9_mutation_characterized (financial_data : FinData)
    (bm : Option Benchmarks) :
    (run_analysis financial_data bm).2 =
      { financial_data with
        current := financial_data.current.map enrich_period
        prior := financial_data.prior.map enrich_period
        prior2 := financial_data.prior2.map enrich_period } ∧
    (∀ p : PeriodRecord, same_parsed_fields p (enrich_period p)) ∧
    (∀ p : PeriodRecord, p.net_profit = none → enrich_period p = p) ∧
    (∀ (p : PeriodRecord) (np : ℚ), p.net_profit = some np →
      (enrich_period p).ebit_computed =
        some (np + orZ p.interest_expense + orZ p.tax_expense) ∧
      (enrich_period p).ebitda_computed =
        some (np + orZ p.interest_expense + orZ p.tax_expense +
          orZ p.depreciation)) := by
  refine ⟨?_, enrich_period_same_parsed, enrich_period_none,
    enrich_period_some⟩
  unfold run_analysis
  dsimp only
  split <;> rfl

/-- C9 witness: a record without net profit is untouched, and the 100/30/20
record gains a cached EBIT of 150. -/
theorem C9_mutation_witness :
    enrich_period ({} : PeriodRecord) = {} ∧
    (enrich_period { net_profit := some 100, tax_expense := some 30,
                     interest_expense := some 20 }).ebit_computed =
      some 150 := by
  have h := C9_mutation_characterized {} none
  refine ⟨h.2.2.1 {} rfl, ?_⟩
  have h2 := (h.2.2.2 { net_profit := some 100, tax_expense := some 30,
                        interest_expense := some 20 } 100 rfl).1
  rw [h2]
  norm_num [orZ]

end FinSight
